import Mathlib

/-!
# Verification of the PLNmodels C++ optimization core (src/src/optimize.cpp)

A shallow embedding of the parameter packer, the nlopt driver wrapper and the
model-variant objective/gradient closures of `optimize.cpp`, with theorems
checking the natural-language specification against the code.

Modelling conventions:
* `double` scalars are modelled by `ℚ`; the transcendental kernels
  (`std::exp`, `std::log`) and the dense linear-algebra kernels that are
  opaque to every property proved here (`arma::inv_sympd`, `arma::log_det`)
  are passed as explicit function parameters.
* arma vectors are `List ℚ` (packed storage) or `Fin n → ℚ` (algebra);
  arma matrices are `Matrix (Fin n) (Fin p) ℚ`; arma stores matrices
  column-major, so a matrix inside the packed vector is a list of columns.
* Rcpp exceptions are `Except.error` with the exact message the code throws.
-/

/-! ## Parameter packer (optimize.cpp lines 193-294) -/

/-- Shape of one packed parameter group: an `arma::vec` (length) or an
`arma::mat` (rows, cols), matching the two `PackedInfo` specialisations. -/
inductive PGroup where
  | vec (size : Nat)
  | mat (rows cols : Nat)
deriving DecidableEq

/-- Number of packed elements of a group (`n_elem`, resp. `rows * cols`). -/
def PGroup.size : PGroup → Nat
  | .vec n => n
  | .mat r c => r * c

/-- A value for one group: a vector, or a matrix given as its list of columns
(arma matrices are column-major, so `vectorise` concatenates the columns). -/
inductive PValue where
  | vec (v : List ℚ)
  | mat (cols : List (List ℚ))
deriving DecidableEq

/-- `arma::vectorise`: the packed (column-major) storage of a value. -/
def PValue.vectorise : PValue → List ℚ
  | .vec v => v
  | .mat cols => cols.flatten

/-- Shape compatibility of a value with a group. -/
def PValue.compat : PValue → PGroup → Prop
  | .vec v, .vec n => v.length = n
  | .mat cols, .mat r c => cols.length = c ∧ ∀ col ∈ cols, col.length = r
  | _, _ => False

/-- `packed.subvec(offset, arma::size(size, 1))`: the length-`size` slice
starting at `offset`. -/
def readSlice (packed : List ℚ) (offset size : Nat) : List ℚ :=
  (packed.drop offset).take size

/-- Assignment to `packed.subvec(offset, arma::size(v.length, 1))`: overwrite
the slice with `v`, leaving everything outside it unchanged. -/
def writeSlice (packed : List ℚ) (offset : Nat) (v : List ℚ) : List ℚ :=
  packed.take offset ++ v ++ packed.drop (offset + v.length)

/-- `arma::reshape(slice, arma::size(rows, cols))`: cut the flat storage into
`cols` columns of length `rows` (column-major fill). -/
def reshapeCols (rows : Nat) : Nat → List ℚ → List (List ℚ)
  | 0, _ => []
  | c + 1, l => l.take rows :: reshapeCols rows c (l.drop rows)

/-- `PackedInfo` (optimize.cpp lines 211-264): offset and shape of one group
inside the packed vector. -/
structure PackedInfo where
  offset : Nat
  grp : PGroup
deriving DecidableEq

/-- `PackedInfo::unpack` (lines 221 and 248-250): read the group's slice back,
reshaping matrix groups column-major. -/
def PackedInfo.unpack (info : PackedInfo) (packed : List ℚ) : PValue :=
  match info.grp with
  | .vec n => .vec (readSlice packed info.offset n)
  | .mat r c => .mat (reshapeCols r c (readSlice packed info.offset (r * c)))

/-- `PackedInfo::pack` (lines 223-225 and 252-255): write `vectorise` of the
value into the group's slice. -/
def PackedInfo.pack (info : PackedInfo) (packed : List ℚ) (v : PValue) : List ℚ :=
  writeSlice packed info.offset v.vectorise

/-- Recursion of `make_packer` (lines 285-294): `PackedInfo` constructors run
in declaration order, each reading then advancing `current_offset`; the final
offset is the total size. -/
def make_packer_aux (current_offset : Nat) : List PGroup → List PackedInfo × Nat
  | [] => ([], current_offset)
  | g :: gs =>
    let rest := make_packer_aux (current_offset + g.size) gs
    (⟨current_offset, g⟩ :: rest.1, rest.2)

/-- `Packer` (lines 268-283): per-group packing info plus total size. -/
structure Packer where
  elements : List PackedInfo
  size : Nat
deriving DecidableEq

/-- `make_packer` (lines 285-294). -/
def make_packer (gs : List PGroup) : Packer :=
  ⟨(make_packer_aux 0 gs).1, (make_packer_aux 0 gs).2⟩

lemma make_packer_aux_total (o : Nat) (gs : List PGroup) :
    (make_packer_aux o gs).2 = o + (gs.map PGroup.size).sum := by
  induction gs generalizing o with
  | nil => simp [make_packer_aux]
  | cons g gs ih => simp [make_packer_aux, ih, Nat.add_assoc]

lemma make_packer_aux_get? (o : Nat) (gs : List PGroup) (i : Nat) (info : PackedInfo)
    (h : (make_packer_aux o gs).1[i]? = some info) :
    info.offset = o + ((gs.take i).map PGroup.size).sum ∧
      info.offset + info.grp.size ≤ (make_packer_aux o gs).2 := by
  induction gs generalizing o i with
  | nil => simp [make_packer_aux] at h
  | cons g gs ih =>
    cases i with
    | zero =>
      simp only [make_packer_aux, List.getElem?_cons_zero, Option.some_inj] at h
      subst h
      refine ⟨by simp, ?_⟩
      rw [make_packer_aux_total]
      simp [Nat.add_le_add_iff_left, Nat.le_add_right]
    | succ i =>
      simp only [make_packer_aux, List.getElem?_cons_succ] at h
      have := ih (o + g.size) i h
      refine ⟨?_, this.2⟩
      rw [this.1]
      simp [Nat.add_assoc]

lemma writeSlice_length (packed v : List ℚ) (offset : Nat)
    (h : offset + v.length ≤ packed.length) :
    (writeSlice packed offset v).length = packed.length := by
  have ho : offset ≤ packed.length := le_trans (Nat.le_add_right _ _) h
  simp only [writeSlice, List.length_append, List.length_take, List.length_drop]
  omega

lemma drop_append_len (l₁ l₂ : List ℚ) (n : Nat) (h : l₁.length = n) :
    (l₁ ++ l₂).drop n = l₂ := by
  subst h; exact List.drop_left ..

lemma take_append_len (l₁ l₂ : List ℚ) (n : Nat) (h : l₁.length = n) :
    (l₁ ++ l₂).take n = l₁ := by
  subst h; exact List.take_left ..

lemma readSlice_writeSlice (packed v : List ℚ) (offset : Nat)
    (h : offset + v.length ≤ packed.length) :
    readSlice (writeSlice packed offset v) offset v.length = v := by
  have ho : offset ≤ packed.length := le_trans (Nat.le_add_right _ _) h
  have htake : (packed.take offset).length = offset := by
    simp [List.length_take, Nat.min_eq_left ho]
  unfold readSlice writeSlice
  rw [List.append_assoc, drop_append_len _ _ _ htake]
  exact take_append_len _ _ _ rfl

lemma reshapeCols_flatten (r : Nat) (cols : List (List ℚ))
    (h : ∀ col ∈ cols, col.length = r) :
    reshapeCols r cols.length cols.flatten = cols := by
  induction cols with
  | nil => simp [reshapeCols]
  | cons c cs ih =>
    have hc : c.length = r := h c (by simp)
    have hrest : ∀ col ∈ cs, col.length = r := fun col hm => h col (by simp [hm])
    simp only [List.length_cons, List.flatten_cons, reshapeCols]
    congr 1
    · exact take_append_len _ _ _ hc
    · rw [drop_append_len _ _ _ hc]; exact ih hrest

lemma flatten_length_of_compat (r c : Nat) (cols : List (List ℚ))
    (hlen : cols.length = c) (h : ∀ col ∈ cols, col.length = r) :
    cols.flatten.length = r * c := by
  induction cols generalizing c with
  | nil => simp only [List.length_nil] at hlen; simp [← hlen]
  | cons col cs ih =>
    cases c with
    | zero => simp at hlen
    | succ c =>
      have h1 : col.length = r := h col (by simp)
      have h2 : cs.flatten.length = r * c :=
        ih c (by simpa using hlen) (fun x hx => h x (by simp [hx]))
      simp [h1, h2, Nat.mul_succ, Nat.add_comm]

/-- Round trip for a single `PackedInfo`: unpacking right after packing a
shape-compatible value returns it. -/
lemma PackedInfo.unpack_pack (info : PackedInfo) (packed : List ℚ) (v : PValue)
    (hcompat : v.compat info.grp)
    (hfit : info.offset + info.grp.size ≤ packed.length) :
    info.unpack (info.pack packed v) = v := by
  cases v with
  | vec l =>
    cases hg : info.grp with
    | vec n =>
      have hlen : l.length = n := by
        have := hcompat; rw [hg] at this; exact this
      have hsz : info.grp.size = n := by rw [hg]; rfl
      simp only [PackedInfo.unpack, PackedInfo.pack, hg, PValue.vectorise]
      rw [← hlen]
      rw [readSlice_writeSlice packed l info.offset (by rw [hsz, ← hlen] at hfit; exact hfit)]
    | mat r c => rw [hg] at hcompat; exact absurd hcompat (by simp [PValue.compat])
  | mat cols =>
    cases hg : info.grp with
    | vec n => rw [hg] at hcompat; exact absurd hcompat (by simp [PValue.compat])
    | mat r c =>
      have hc : cols.length = c ∧ ∀ col ∈ cols, col.length = r := by
        have := hcompat; rw [hg] at this; exact this
      have hjoin : cols.flatten.length = r * c := flatten_length_of_compat r c cols hc.1 hc.2
      have hsz : info.grp.size = r * c := by rw [hg]; rfl
      simp only [PackedInfo.unpack, PackedInfo.pack, hg, PValue.vectorise]
      rw [← hjoin, readSlice_writeSlice packed cols.flatten info.offset
        (by rw [hsz, ← hjoin] at hfit; exact hfit), ← hc.1,
        reshapeCols_flatten r cols hc.2]

/-- C2. For every packer built from an ordered list of groups, every group
index and every shape-compatible value, unpacking the group after packing the
value into a packed vector of the packer's size returns the value unchanged,
for vector groups and matrix groups alike. -/
theorem claim_C2_pack_unpack_roundtrip (gs : List PGroup) (packed : List ℚ)
    (i : Nat) (info : PackedInfo) (v : PValue)
    (hinfo : (make_packer gs).elements[i]? = some info)
    (hsize : packed.length = (make_packer gs).size)
    (hcompat : v.compat info.grp) :
    info.unpack (info.pack packed v) = v := by
  have h := make_packer_aux_get? 0 gs i info hinfo
  exact PackedInfo.unpack_pack info packed v hcompat (by rw [hsize]; exact h.2)

/-- Witness for C2: round trip of a concrete 2x2 matrix group behind a
length-1 vector group. -/
theorem claim_C2_witness :
    (⟨1, .mat 2 2⟩ : PackedInfo).unpack
      ((⟨1, .mat 2 2⟩ : PackedInfo).pack [0, 0, 0, 0, 0] (.mat [[1, 2], [3, 4]])) =
      .mat [[1, 2], [3, 4]] := by
  have h := claim_C2_pack_unpack_roundtrip [.vec 1, .mat 2 2] [0, 0, 0, 0, 0]
    1 ⟨1, .mat 2 2⟩ (.mat [[1, 2], [3, 4]])
    (by simp [make_packer, make_packer_aux, PGroup.size])
    (by simp [make_packer, make_packer_aux, PGroup.size])
    (by simp [PValue.compat])
  exact h

/-- C9. Offsets are the prefix sums of the group sizes, the total size is the
full sum, a zero-size group occupies a well-defined empty slice at a valid
offset, and the literal example sizes 0, 4x10, 7, 7 give offsets
[0, 0, 40, 47] and total size 54. -/
theorem claim_C9_packer_offsets :
    (∀ (gs : List PGroup) (i : Nat) (info : PackedInfo),
        (make_packer gs).elements[i]? = some info →
        info.offset = ((gs.take i).map PGroup.size).sum ∧
          info.offset + info.grp.size ≤ (make_packer gs).size) ∧
    (∀ gs : List PGroup, (make_packer gs).size = (gs.map PGroup.size).sum) ∧
    (make_packer [.vec 0, .mat 4 10, .vec 7, .vec 7] =
      ⟨[⟨0, .vec 0⟩, ⟨0, .mat 4 10⟩, ⟨40, .vec 7⟩, ⟨47, .vec 7⟩], 54⟩) := by
  refine ⟨?_, ?_, ?_⟩
  · intro gs i info h
    have := make_packer_aux_get? 0 gs i info h
    simpa [make_packer] using this
  · intro gs
    have := make_packer_aux_total 0 gs
    simpa [make_packer] using this
  · rfl

/-! ## R values and pack_double_or_arma (optimize.cpp lines 227-233, 257-263) -/

/-- An R value handed over as SEXP, as far as the code inspects it through
`Rcpp::is` / `Rcpp::as`: a scalar double, an arma vector, an arma matrix
(list of columns), a named list, or anything else. -/
inductive RValue where
  | double (d : ℚ)
  | rvec (v : List ℚ)
  | rmat (cols : List (List ℚ))
  | rlist (entries : List (String × RValue))
  | other

/-- `Rcpp::as<arma::vec>` / `Rcpp::as<arma::mat>`: succeeds on a value of the
group's structure, otherwise throws `Rcpp::not_compatible`. -/
def as_arma : PGroup → RValue → Except String PValue
  | .vec _, .rvec v => .ok (.vec v)
  | .mat _ _, .rmat cols => .ok (.mat cols)
  | _, _ => .error "Rcpp not_compatible"

/-- `PackedInfo::pack_double_or_arma` (lines 227-233 for vec, 257-263 for
mat): a scalar fills the group's whole slice, anything else goes through
`Rcpp::as` and `pack`. -/
def PackedInfo.pack_double_or_arma (info : PackedInfo) (packed : List ℚ) (r : RValue) :
    Except String (List ℚ) :=
  match r with
  | .double d => .ok (writeSlice packed info.offset (List.replicate info.grp.size d))
  | r => (as_arma info.grp r).map fun v => info.pack packed v

/-- The xtol_abs branch of `OptimizerConfiguration::from_r_list` (lines
94-104): a double is broadcast over the whole packed vector, a named list is
delegated to the variant's `pack_xtol_abs` sub-function (which receives the
freshly allocated, uninitialised size-`packer_size` buffer, modelled by
`xtol_abs_init`), anything else is a configuration error. -/
def xtol_abs_from_r (packer_size : Nat)
    (pack_xtol_abs : List ℚ → List (String × RValue) → Except String (List ℚ))
    (xtol_abs_init : List ℚ) : RValue → Except String (List ℚ)
  | .double d => .ok (List.replicate packer_size d)
  | .rlist entries => pack_xtol_abs xtol_abs_init entries
  | _ => .error "unsupported config[xtol_abs] type: must be double or list of by-parameter values"

/-- C8. A scalar input to pack_double_or_arma fills the entire group slice
with that value (leaving the vector's length unchanged); a structured input
matching the group's shape is copied element-wise into the slice (unpacking
the slice returns it); and a top-level xtol_abs value that is neither a
scalar nor a named list is rejected as a configuration error. -/
theorem claim_C8_tolerance_broadcast :
    (∀ (info : PackedInfo) (packed : List ℚ) (d : ℚ),
        info.offset + info.grp.size ≤ packed.length →
        ∃ out, info.pack_double_or_arma packed (.double d) = .ok out ∧
          readSlice out info.offset info.grp.size = List.replicate info.grp.size d ∧
          out.length = packed.length) ∧
    (∀ (offset : Nat) (v : List ℚ) (packed : List ℚ),
        offset + v.length ≤ packed.length →
        ∃ out, (⟨offset, .vec v.length⟩ : PackedInfo).pack_double_or_arma packed (.rvec v) =
            .ok out ∧
          (⟨offset, .vec v.length⟩ : PackedInfo).unpack out = .vec v) ∧
    (∀ (offset r : Nat) (cols : List (List ℚ)) (packed : List ℚ),
        (∀ col ∈ cols, col.length = r) →
        offset + r * cols.length ≤ packed.length →
        ∃ out, (⟨offset, .mat r cols.length⟩ : PackedInfo).pack_double_or_arma packed
            (.rmat cols) = .ok out ∧
          (⟨offset, .mat r cols.length⟩ : PackedInfo).unpack out = .mat cols) ∧
    (∀ (packer_size : Nat) pack_xtol_abs (init : List ℚ) (r : RValue),
        (∀ d, r ≠ .double d) → (∀ l, r ≠ .rlist l) →
        xtol_abs_from_r packer_size pack_xtol_abs init r =
          .error "unsupported config[xtol_abs] type: must be double or list of by-parameter values") := by
  refine ⟨?_, ?_, ?_, ?_⟩
  · intro info packed d hfit
    refine ⟨_, rfl, ?_, ?_⟩
    · have := readSlice_writeSlice packed (List.replicate info.grp.size d) info.offset
        (by simpa using hfit)
      simpa using this
    · exact writeSlice_length _ _ _ (by simpa using hfit)
  · intro offset v packed hfit
    refine ⟨_, rfl, ?_⟩
    have := PackedInfo.unpack_pack ⟨offset, .vec v.length⟩ packed (.vec v)
      (by simp [PValue.compat]) (by simpa [PGroup.size] using hfit)
    simpa [PackedInfo.pack_double_or_arma, as_arma] using this
  · intro offset r cols packed hcols hfit
    refine ⟨_, rfl, ?_⟩
    have := PackedInfo.unpack_pack ⟨offset, .mat r cols.length⟩ packed (.mat cols)
      (by exact ⟨rfl, hcols⟩) (by simpa [PGroup.size] using hfit)
    simpa [PackedInfo.pack_double_or_arma, as_arma] using this
  · intro packer_size pack_xtol_abs init r hd hl
    cases r with
    | double d => exact absurd rfl (hd d)
    | rlist l => exact absurd rfl (hl l)
    | rvec v => rfl
    | rmat cols => rfl
    | other => rfl

/-! ## Algorithm naming (optimize.cpp lines 26-63) -/

/-- The nlopt algorithm identifiers the code can produce (`nlopt_algorithm`
enum values used in `supported_algorithms`). -/
inductive nlopt_algorithm where
  | NLOPT_LD_LBFGS_NOCEDAL
  | NLOPT_LD_LBFGS
  | NLOPT_LD_VAR1
  | NLOPT_LD_VAR2
  | NLOPT_LD_TNEWTON
  | NLOPT_LD_TNEWTON_RESTART
  | NLOPT_LD_TNEWTON_PRECOND
  | NLOPT_LD_TNEWTON_PRECOND_RESTART
  | NLOPT_LD_MMA
  | NLOPT_LD_CCSAQ
deriving DecidableEq

/-- `AlgorithmNameAssociation` (lines 29-32). -/
structure AlgorithmNameAssociation where
  name : String
  enum_value : nlopt_algorithm
deriving DecidableEq

/-- `supported_algorithms` (lines 33-44). -/
def supported_algorithms : List AlgorithmNameAssociation := [
  ⟨"LBFGS_NOCEDAL", .NLOPT_LD_LBFGS_NOCEDAL⟩,
  ⟨"LBFGS", .NLOPT_LD_LBFGS⟩,
  ⟨"VAR1", .NLOPT_LD_VAR1⟩,
  ⟨"VAR2", .NLOPT_LD_VAR2⟩,
  ⟨"TNEWTON", .NLOPT_LD_TNEWTON⟩,
  ⟨"TNEWTON_RESTART", .NLOPT_LD_TNEWTON_RESTART⟩,
  ⟨"TNEWTON_PRECOND", .NLOPT_LD_TNEWTON_PRECOND⟩,
  ⟨"TNEWTON_PRECOND_RESTART", .NLOPT_LD_TNEWTON_PRECOND_RESTART⟩,
  ⟨"MMA", .NLOPT_LD_MMA⟩,
  ⟨"CCSAQ", .NLOPT_LD_CCSAQ⟩]

/-- The message built at lines 54-61: it names the unsupported value and
appends every supported name. -/
def unsupported_algorithm_message (name : String) : String :=
  "Unsupported algorithm name: \"" ++ name ++ "\"\nSupported:" ++
    String.join (supported_algorithms.map fun a => " " ++ a.name)

/-- `algorithm_from_name` (lines 47-63): first association whose name
matches, otherwise throw the message above. -/
def algorithm_from_name (name : String) : Except String nlopt_algorithm :=
  match supported_algorithms.find? fun a => name == a.name with
  | some a => .ok a.enum_value
  | none => .error (unsupported_algorithm_message name)

/-! ## Optimizer driver (optimize.cpp lines 66-191) -/

/-- `OptimizerConfiguration` (lines 69-79). -/
structure OptimizerConfiguration where
  algorithm : nlopt_algorithm
  xtol_abs : List ℚ
  xtol_rel : ℚ
  ftol_abs : ℚ
  ftol_rel : ℚ
  maxeval : Int
  maxtime : ℚ

/-- The named R list handed to `OptimizerConfiguration::from_r_list`, with the
fields the code reads. -/
structure RConfigList where
  algorithm : String
  xtol_abs : RValue
  xtol_rel : ℚ
  ftol_abs : ℚ
  ftol_rel : ℚ
  maxeval : Int
  maxtime : ℚ

/-- `OptimizerConfiguration::from_r_list` (lines 93-118): resolve xtol_abs
first (lines 95-104), then the algorithm name and the plain scalar fields
while building the return value (lines 106-117). -/
def OptimizerConfiguration.from_r_list (list : RConfigList) (packer_size : Nat)
    (xtol_abs_init : List ℚ)
    (pack_xtol_abs : List ℚ → List (String × RValue) → Except String (List ℚ)) :
    Except String OptimizerConfiguration := do
  let xtol_abs ← xtol_abs_from_r packer_size pack_xtol_abs xtol_abs_init list.xtol_abs
  let algorithm ← algorithm_from_name list.algorithm
  pure ⟨algorithm, xtol_abs, list.xtol_rel, list.ftol_abs, list.ftol_rel,
    list.maxeval, list.maxtime⟩

/-- `OptimizerResult` (lines 121-125). `status` is the raw `nlopt_result`
integer code (negative codes are failures, NLOPT_SUCCESS = 1, ...). -/
structure OptimizerResult where
  status : Int
  objective : ℚ
  nb_iterations : Int
deriving DecidableEq

/-- Observable behaviour of the external nlopt library for one call: whether
creation and each setter succeed, at which trial points `nlopt_optimize`
invokes the registered callback, and the status / final point / final value
it returns. The driver is proved correct for every such behaviour. -/
structure NloptBehavior where
  create_ok : Bool
  set_xtol_abs_ok : Bool
  set_xtol_rel_ok : Bool
  set_ftol_abs_ok : Bool
  set_ftol_rel_ok : Bool
  set_maxeval_ok : Bool
  set_maxtime_ok : Bool
  set_min_objective_ok : Bool
  trial_points : List (List ℚ)
  status : Int
  final_point : List ℚ
  final_objective : ℚ

/-- `OptimData` (lines 169-172): the iteration counter threaded through the
stateless callback adapter. -/
structure OptimData where
  nb_iterations : Int
deriving DecidableEq

/-- The callback adapter `optim_fn` (lines 175-183): wrap the raw arrays,
increment the iteration counter, call the closure exactly once and hand its
value back to nlopt. -/
def optim_fn (objective_and_grad_fn : List ℚ → ℚ × List ℚ)
    (optim_data : OptimData) (x : List ℚ) : OptimData × ℚ :=
  let value_and_grad := objective_and_grad_fn x
  (⟨optim_data.nb_iterations + 1⟩, value_and_grad.1)

/-- `minimize_objective_on_parameters` (lines 128-191): validate xtol_abs
size, create the optimizer, apply the six setters and the objective
registration (each failure is a thrown exception), run `nlopt_optimize`
(which calls the adapter at each trial point) and return the final status as
data together with the final parameters (written in place by nlopt). -/
def minimize_objective_on_parameters (nlopt : NloptBehavior) (parameters : List ℚ)
    (config : OptimizerConfiguration)
    (objective_and_grad_fn : List ℚ → ℚ × List ℚ) :
    Except String (OptimizerResult × List ℚ) :=
  if ¬ (config.xtol_abs.length = parameters.length) then
    .error "config.xtol_abs size"
  else if nlopt.create_ok = false then .error "nlopt_create"
  else if nlopt.set_xtol_abs_ok = false then .error "nlopt_set_xtol_abs"
  else if nlopt.set_xtol_rel_ok = false then .error "nlopt_set_xtol_rel"
  else if nlopt.set_ftol_abs_ok = false then .error "nlopt_set_ftol_abs"
  else if nlopt.set_ftol_rel_ok = false then .error "nlopt_set_ftol_rel"
  else if nlopt.set_maxeval_ok = false then .error "nlopt_set_maxeval"
  else if nlopt.set_maxtime_ok = false then .error "nlopt_set_maxtime"
  else if nlopt.set_min_objective_ok = false then .error "nlopt_set_min_objective"
  else
    let final_data := nlopt.trial_points.foldl
      (fun d x => (optim_fn objective_and_grad_fn d x).1) ⟨0⟩
    .ok (⟨nlopt.status, nlopt.final_objective, final_data.nb_iterations⟩,
      nlopt.final_point)

/-- The parameters as the caller sees them after the call: a thrown exception
propagates before `nlopt_optimize` ever writes into the in/out buffer, so on
`Except.error` the buffer still holds its initial contents. -/
def parameters_after (initial : List ℚ)
    (r : Except String (OptimizerResult × List ℚ)) : List ℚ :=
  match r with
  | .ok (_, final) => final
  | .error _ => initial

/-- The call pattern of every `cpp_optimize_*` entry point: build the
configuration from the R list, then run the driver. -/
def run_optimization (nlopt : NloptBehavior) (rconfig : RConfigList)
    (packer_size : Nat) (xtol_abs_init : List ℚ)
    (pack_xtol_abs : List ℚ → List (String × RValue) → Except String (List ℚ))
    (parameters : List ℚ) (fn : List ℚ → ℚ × List ℚ) :
    Except String (OptimizerResult × List ℚ) := do
  let config ← OptimizerConfiguration.from_r_list rconfig packer_size
    xtol_abs_init pack_xtol_abs
  minimize_objective_on_parameters nlopt parameters config fn

lemma foldl_optim_fn (fn : List ℚ → ℚ × List ℚ) (l : List (List ℚ)) (k : Int) :
    l.foldl (fun d x => (optim_fn fn d x).1) ⟨k⟩ = ⟨k + l.length⟩ := by
  induction l generalizing k with
  | nil => simp
  | cons x xs ih =>
    rw [List.foldl_cons]
    have h1 : (optim_fn fn ⟨k⟩ x).1 = (⟨k + 1⟩ : OptimData) := rfl
    rw [h1, ih (k + 1)]
    congr 1
    simp only [List.length_cons]
    push_cast
    ring

/-- C4. When the external optimizer terminates with any status (success or
not), the driver raises no error: the status comes back as data, the
parameters are the optimizer's final point, and the reported iteration count
equals the number of objective-closure evaluations the adapter performed
(one per callback invocation, independent of the status). -/
theorem claim_C4_nonsuccess_status_is_data (nlopt : NloptBehavior)
    (parameters : List ℚ) (config : OptimizerConfiguration)
    (fn : List ℚ → ℚ × List ℚ)
    (hlen : config.xtol_abs.length = parameters.length)
    (hcreate : nlopt.create_ok = true)
    (h1 : nlopt.set_xtol_abs_ok = true) (h2 : nlopt.set_xtol_rel_ok = true)
    (h3 : nlopt.set_ftol_abs_ok = true) (h4 : nlopt.set_ftol_rel_ok = true)
    (h5 : nlopt.set_maxeval_ok = true) (h6 : nlopt.set_maxtime_ok = true)
    (h7 : nlopt.set_min_objective_ok = true) :
    minimize_objective_on_parameters nlopt parameters config fn =
      .ok (⟨nlopt.status, nlopt.final_objective,
            Int.ofNat (nlopt.trial_points.map fn).length⟩,
           nlopt.final_point) := by
  unfold minimize_objective_on_parameters
  rw [if_neg (by simp [hlen]), if_neg (by simp [hcreate]), if_neg (by simp [h1]),
    if_neg (by simp [h2]), if_neg (by simp [h3]), if_neg (by simp [h4]),
    if_neg (by simp [h5]), if_neg (by simp [h6]), if_neg (by simp [h7])]
  simp only [foldl_optim_fn]
  simp [List.length_map]

/-- Witness for C4: a concrete run where nlopt stops at status 5
(NLOPT_MAXEVAL_REACHED, a non-success status) after two callback
invocations. -/
theorem claim_C4_witness :
    minimize_objective_on_parameters
      ⟨true, true, true, true, true, true, true, true, [[1], [2]], 5, [3], 9⟩
      [42] ⟨.NLOPT_LD_LBFGS, [1], 1, 1, 1, 100, 100⟩ (fun x => (0, x)) =
      .ok (⟨5, 9, 2⟩, [3]) := by
  have h := claim_C4_nonsuccess_status_is_data
    ⟨true, true, true, true, true, true, true, true, [[1], [2]], 5, [3], 9⟩
    [42] ⟨.NLOPT_LD_LBFGS, [1], 1, 1, 1, 100, 100⟩ (fun x => (0, x))
    rfl rfl rfl rfl rfl rfl rfl rfl rfl
  simpa using h

/-- C7. When the length of config.xtol_abs differs from the length of the
parameters vector, the driver fails with the configuration error before any
optimizer resource is created and before any objective evaluation (the result
is the same error for every nlopt behaviour and every closure), and the
parameters vector is left unchanged. -/
theorem claim_C7_xtol_abs_size_mismatch (nlopt : NloptBehavior)
    (parameters : List ℚ) (config : OptimizerConfiguration)
    (fn : List ℚ → ℚ × List ℚ)
    (hlen : ¬ (config.xtol_abs.length = parameters.length)) :
    minimize_objective_on_parameters nlopt parameters config fn =
      .error "config.xtol_abs size" ∧
    parameters_after parameters
      (minimize_objective_on_parameters nlopt parameters config fn) = parameters := by
  have h : minimize_objective_on_parameters nlopt parameters config fn =
      .error "config.xtol_abs size" := by
    simp only [minimize_objective_on_parameters, if_pos hlen]
  exact ⟨h, by rw [h]; rfl⟩

/-- Witness for C7: a concrete mismatch (xtol_abs of length 1 against 2
parameters) rejected with nlopt never consulted. -/
theorem claim_C7_witness :
    minimize_objective_on_parameters
      ⟨false, false, false, false, false, false, false, false, [], 1, [], 0⟩
      [1, 2] ⟨.NLOPT_LD_LBFGS, [1], 1, 1, 1, 100, 100⟩ (fun x => (0, x)) =
      .error "config.xtol_abs size" ∧
    parameters_after [1, 2]
      (minimize_objective_on_parameters
        ⟨false, false, false, false, false, false, false, false, [], 1, [], 0⟩
        [1, 2] ⟨.NLOPT_LD_LBFGS, [1], 1, 1, 1, 100, 100⟩ (fun x => (0, x))) = [1, 2] :=
  claim_C7_xtol_abs_size_mismatch
    ⟨false, false, false, false, false, false, false, false, [], 1, [], 0⟩
    [1, 2] ⟨.NLOPT_LD_LBFGS, [1], 1, 1, 1, 100, 100⟩ (fun x => (0, x)) (by decide)

/-- C6. An algorithm name outside the supported set makes configuration
resolution fail with the error message naming the unsupported value and
listing the supported names, before any optimizer resource is created and
before any objective evaluation (the whole call errors identically for every
nlopt behaviour and every closure); every supported name resolves to its
algorithm identifier. -/
theorem claim_C6_algorithm_name_resolution :
    (∀ name : String, (∀ a ∈ supported_algorithms, name ≠ a.name) →
        algorithm_from_name name = .error (unsupported_algorithm_message name)) ∧
    (∀ a ∈ supported_algorithms, algorithm_from_name a.name = .ok a.enum_value) ∧
    (∀ (nlopt : NloptBehavior) (rconfig : RConfigList) (packer_size : Nat)
        (init parameters : List ℚ) pack_xtol_abs (fn : List ℚ → ℚ × List ℚ) (d : ℚ),
        (∀ a ∈ supported_algorithms, rconfig.algorithm ≠ a.name) →
        rconfig.xtol_abs = .double d →
        run_optimization nlopt rconfig packer_size init pack_xtol_abs parameters fn =
          .error (unsupported_algorithm_message rconfig.algorithm)) := by
  have hnone : ∀ name : String, (∀ a ∈ supported_algorithms, name ≠ a.name) →
      algorithm_from_name name = .error (unsupported_algorithm_message name) := by
    intro name h
    unfold algorithm_from_name
    have : supported_algorithms.find? (fun a => name == a.name) = none := by
      rw [List.find?_eq_none]
      intro a ha
      simpa using h a ha
    rw [this]
  refine ⟨hnone, ?_, ?_⟩
  · intro a ha
    fin_cases ha <;> rfl
  · intro nlopt rconfig packer_size init parameters pack_xtol_abs fn d hname hxtol
    have halg := hnone rconfig.algorithm hname
    simp only [run_optimization, OptimizerConfiguration.from_r_list, hxtol,
      xtol_abs_from_r, halg]
    rfl

/-! ## Matrix groundwork for the model-variant closures (optimize.cpp 296-908) -/

/-- `S % S` (elementwise square of the variational scale S). -/
def matSq {n p : Nat} (S : Matrix (Fin n) (Fin p) ℚ) : Matrix (Fin n) (Fin p) ℚ :=
  Matrix.of fun i j => S i j * S i j

/-- Elementwise square of a vector S (`S % S` on an `arma::vec`). -/
def vecSq {n : Nat} (S : Fin n → ℚ) : Fin n → ℚ := fun i => S i * S i

/-- arma elementwise product `A % B`. -/
def hadamard {n p : Nat} (A B : Matrix (Fin n) (Fin p) ℚ) : Matrix (Fin n) (Fin p) ℚ :=
  Matrix.of fun i j => A i j * B i j

/-- `X.each_col() % w` (equivalently `diagmat(w) * X`): row i scaled by w i. -/
def colWeighted {n p : Nat} (w : Fin n → ℚ) (X : Matrix (Fin n) (Fin p) ℚ) :
    Matrix (Fin n) (Fin p) ℚ :=
  Matrix.of fun i j => w i * X i j

/-- `accu(w.t() * B)` = `accu(diagmat(w) * B)`: row-weighted total of all
entries. -/
def waccu {n p : Nat} (w : Fin n → ℚ) (B : Matrix (Fin n) (Fin p) ℚ) : ℚ :=
  ∑ i, ∑ j, w i * B i j

/-- `w_bar = accu(w)`. -/
def w_bar {n : Nat} (w : Fin n → ℚ) : ℚ := ∑ i, w i

/-- A matrix with every entry `c` (arma scalar broadcast, e.g. `expr - 1.`). -/
def matConst (n p : Nat) (c : ℚ) : Matrix (Fin n) (Fin p) ℚ :=
  Matrix.of fun _ _ => c

/-- The numeric kernels the closures call but no claim inspects: `std::exp`,
`std::log`, `arma::inv_sympd`, `arma::log_det` (its real part). They are
opaque parameters of the embedding. -/
structure RealOps where
  exp : ℚ → ℚ
  log : ℚ → ℚ
  inv_sympd : {p : Nat} → Matrix (Fin p) (Fin p) ℚ → Matrix (Fin p) (Fin p) ℚ
  log_det : {p : Nat} → Matrix (Fin p) (Fin p) ℚ → ℚ

/-- A concrete instantiation of the opaque kernels (identity / zero), used for
evaluating the embedding at concrete inputs. -/
def idOps : RealOps :=
  ⟨id, id, fun {_} M => M, fun {_} _ => 0⟩

/-- The observation data every variant receives (Y responses, X covariates,
O offsets, w row weights). -/
structure ObsData (n p d : Nat) where
  Y : Matrix (Fin n) (Fin p) ℚ
  X : Matrix (Fin n) (Fin d) ℚ
  O : Matrix (Fin n) (Fin p) ℚ
  w : Fin n → ℚ

/-- Guarded `std::log` at the S-dependent call sites `log(S2)`: an IEEE double
log is finite only on positive input (log(0) = -inf, log(negative) = NaN);
`none` stands for a non-finite result. -/
def flog (log : ℚ → ℚ) (x : ℚ) : Option ℚ := if 0 < x then some (log x) else none

/-- Guarded elementwise reciprocal `pow(S, -1)` / `1. / S`: finite exactly off
zero (`1/0 = inf` in IEEE doubles); `none` stands for the non-finite result. -/
def finv (x : ℚ) : Option ℚ := if x = 0 then none else some x⁻¹

/-- Apply a guarded elementwise kernel to a whole matrix: defined (finite)
exactly when every entry application is. -/
def matTraverse {n p : Nat} (f : ℚ → Option ℚ) (M : Matrix (Fin n) (Fin p) ℚ) :
    Option (Matrix (Fin n) (Fin p) ℚ) :=
  if h : ∀ i j, (f (M i j)).isSome then
    some (Matrix.of fun i j => (f (M i j)).get (h i j))
  else
    none

/-- Apply a guarded elementwise kernel to a vector. -/
def vecTraverse {n : Nat} (f : ℚ → Option ℚ) (v : Fin n → ℚ) : Option (Fin n → ℚ) :=
  if h : ∀ i, (f (v i)).isSome then some (fun i => (f (v i)).get (h i)) else none

lemma matTraverse_isSome {n p : Nat} (f : ℚ → Option ℚ) (M : Matrix (Fin n) (Fin p) ℚ)
    (h : ∀ i j, (f (M i j)).isSome) : (matTraverse f M).isSome := by
  simp [matTraverse, dif_pos h]

lemma matTraverse_none {n p : Nat} (f : ℚ → Option ℚ) (M : Matrix (Fin n) (Fin p) ℚ)
    (i : Fin n) (j : Fin p) (h : f (M i j) = none) : matTraverse f M = none := by
  rw [matTraverse, dif_neg]
  intro hall
  have := hall i j
  rw [h] at this
  exact Bool.noConfusion this

lemma vecTraverse_isSome {n : Nat} (f : ℚ → Option ℚ) (v : Fin n → ℚ)
    (h : ∀ i, (f (v i)).isSome) : (vecTraverse f v).isSome := by
  simp [vecTraverse, dif_pos h]

lemma vecTraverse_none {n : Nat} (f : ℚ → Option ℚ) (v : Fin n → ℚ)
    (i : Fin n) (h : f (v i) = none) : vecTraverse f v = none := by
  rw [vecTraverse, dif_neg]
  intro hall
  have := hall i
  rw [h] at this
  exact Bool.noConfusion this

lemma flog_sq_isSome (log : ℚ → ℚ) (s : ℚ) (h : s ≠ 0) : (flog log (s * s)).isSome := by
  rw [flog, if_pos (mul_self_pos.mpr h)]
  rfl

lemma flog_sq_none (log : ℚ → ℚ) (s : ℚ) (h : s = 0) : flog log (s * s) = none := by
  subst h
  rw [flog, if_neg (by norm_num)]

lemma finv_isSome (s : ℚ) (h : s ≠ 0) : (finv s).isSome := by
  rw [finv, if_neg h]; rfl

lemma finv_none (s : ℚ) (h : s = 0) : finv s = none := by
  rw [finv, if_pos h]

lemma matTraverse_flog_sq_isSome (log : ℚ → ℚ) {n p : Nat}
    (S : Matrix (Fin n) (Fin p) ℚ) (h : ∀ i j, S i j ≠ 0) :
    (matTraverse (flog log) (matSq S)).isSome :=
  matTraverse_isSome _ _ fun i j => flog_sq_isSome log (S i j) (h i j)

lemma matTraverse_flog_sq_none (log : ℚ → ℚ) {n p : Nat}
    (S : Matrix (Fin n) (Fin p) ℚ) (i : Fin n) (j : Fin p) (h : S i j = 0) :
    matTraverse (flog log) (matSq S) = none :=
  matTraverse_none _ _ i j (flog_sq_none log (S i j) h)

lemma matTraverse_finv_isSome {n p : Nat} (S : Matrix (Fin n) (Fin p) ℚ)
    (h : ∀ i j, S i j ≠ 0) : (matTraverse finv S).isSome :=
  matTraverse_isSome _ _ fun i j => finv_isSome (S i j) (h i j)

lemma matTraverse_finv_none {n p : Nat} (S : Matrix (Fin n) (Fin p) ℚ)
    (i : Fin n) (j : Fin p) (h : S i j = 0) : matTraverse finv S = none :=
  matTraverse_none _ _ i j (finv_none (S i j) h)

lemma vecTraverse_flog_sq_isSome (log : ℚ → ℚ) {n : Nat} (S : Fin n → ℚ)
    (h : ∀ i, S i ≠ 0) : (vecTraverse (flog log) (vecSq S)).isSome :=
  vecTraverse_isSome _ _ fun i => flog_sq_isSome log (S i) (h i)

lemma vecTraverse_flog_sq_none (log : ℚ → ℚ) {n : Nat} (S : Fin n → ℚ)
    (i : Fin n) (h : S i = 0) : vecTraverse (flog log) (vecSq S) = none :=
  vecTraverse_none _ _ i (flog_sq_none log (S i) h)

lemma vecTraverse_finv_isSome {n : Nat} (S : Fin n → ℚ) (h : ∀ i, S i ≠ 0) :
    (vecTraverse finv S).isSome :=
  vecTraverse_isSome _ _ fun i => finv_isSome (S i) (h i)

lemma vecTraverse_finv_none {n : Nat} (S : Fin n → ℚ) (i : Fin n) (h : S i = 0) :
    vecTraverse finv S = none :=
  vecTraverse_none _ _ i (finv_none (S i) h)

/-! ## cpp_optimize_full (optimize.cpp lines 299-376), fully parametrized
covariance. Parameters Theta (p,d), M (n,p), S (n,p). -/

namespace cpp_optimize_full

/-- `Z = O + X * Theta.t() + M` (line 338). -/
def Z {n p d : Nat} (D : ObsData n p d) (Theta : Matrix (Fin p) (Fin d) ℚ)
    (M : Matrix (Fin n) (Fin p) ℚ) : Matrix (Fin n) (Fin p) ℚ :=
  D.O + D.X * Theta.transpose + M

/-- `A = exp(Z + 0.5 * S2)` (line 339). -/
def A {n p d : Nat} (ops : RealOps) (D : ObsData n p d)
    (Theta : Matrix (Fin p) (Fin d) ℚ) (M S : Matrix (Fin n) (Fin p) ℚ) :
    Matrix (Fin n) (Fin p) ℚ :=
  (Z D Theta M + (1/2 : ℚ) • matSq S).map ops.exp

/-- `Omega = w_bar * inv_sympd(M.t() * (M.each_col() % w) + diagmat(w.t() * S2))`
(line 340). -/
def Omega {n p d : Nat} (ops : RealOps) (D : ObsData n p d)
    (M S : Matrix (Fin n) (Fin p) ℚ) : Matrix (Fin p) (Fin p) ℚ :=
  w_bar D.w • ops.inv_sympd
    (M.transpose * colWeighted D.w M +
      Matrix.diagonal fun j => ∑ i, D.w i * matSq S i j)

/-- `objective = accu(w.t() * (A - Y % Z - 0.5 * log(S2))) - 0.5 * w_bar *
real(log_det(Omega))` (line 341), with the unguarded `log(S2)` checked for
IEEE finiteness. -/
def objective {n p d : Nat} (ops : RealOps) (D : ObsData n p d)
    (Theta : Matrix (Fin p) (Fin d) ℚ) (M S : Matrix (Fin n) (Fin p) ℚ) :
    Option ℚ :=
  (matTraverse (flog ops.log) (matSq S)).map fun logS2 =>
    waccu D.w (A ops D Theta M S - hadamard D.Y (Z D Theta M) - (1/2 : ℚ) • logS2) -
      (1/2 : ℚ) * w_bar D.w * ops.log_det (Omega ops D M S)

/-- Theta gradient block `(A - Y).t() * (X.each_col() % w)` (line 343). -/
def grad_Theta {n p d : Nat} (ops : RealOps) (D : ObsData n p d)
    (Theta : Matrix (Fin p) (Fin d) ℚ) (M S : Matrix (Fin n) (Fin p) ℚ) :
    Matrix (Fin p) (Fin d) ℚ :=
  (A ops D Theta M S - D.Y).transpose * colWeighted D.w D.X

/-- M gradient block `diagmat(w) * (M * Omega + A - Y)` (line 344). -/
def grad_M {n p d : Nat} (ops : RealOps) (D : ObsData n p d)
    (Theta : Matrix (Fin p) (Fin d) ℚ) (M S : Matrix (Fin n) (Fin p) ℚ) :
    Matrix (Fin n) (Fin p) ℚ :=
  colWeighted D.w (M * Omega ops D M S + A ops D Theta M S - D.Y)

/-- S gradient block `diagmat(w) * (S.each_row() % diagvec(Omega).t() + S % A -
pow(S, -1))` (line 345), with the unguarded reciprocal checked for IEEE
finiteness. -/
def grad_S {n p d : Nat} (ops : RealOps) (D : ObsData n p d)
    (Theta : Matrix (Fin p) (Fin d) ℚ) (M S : Matrix (Fin n) (Fin p) ℚ) :
    Option (Matrix (Fin n) (Fin p) ℚ) :=
  (matTraverse finv S).map fun Sinv =>
    colWeighted D.w
      ((Matrix.of fun i j => S i j * Omega ops D M S j j) +
        hadamard S (A ops D Theta M S) - Sinv)

/-- Post-run `Sigma = (1. / w_bar) * (M.t() * (M.each_col() % w) +
diagmat(sum(S2.each_col() % w, 0)))` (line 357). -/
def Sigma_post {n p d : Nat} (D : ObsData n p d) (M S : Matrix (Fin n) (Fin p) ℚ) :
    Matrix (Fin p) (Fin p) ℚ :=
  (w_bar D.w)⁻¹ •
    (M.transpose * colWeighted D.w M +
      Matrix.diagonal fun j => ∑ i, D.w i * matSq S i j)

end cpp_optimize_full

/-! ## cpp_optimize_spherical (optimize.cpp lines 381-463), spherical
covariance. Parameters Theta (p,d), M (n,p), S (n): one scale per row. -/

namespace cpp_optimize_spherical

/-- `Z = O + X * Theta.t() + M` (line 421). -/
def Z {n p d : Nat} (D : ObsData n p d) (Theta : Matrix (Fin p) (Fin d) ℚ)
    (M : Matrix (Fin n) (Fin p) ℚ) : Matrix (Fin n) (Fin p) ℚ :=
  D.O + D.X * Theta.transpose + M

/-- `A = exp(Z.each_col() + 0.5 * S2)` (line 422): the per-row scalar 0.5*S2
is added to every column of Z. -/
def A {n p d : Nat} (ops : RealOps) (D : ObsData n p d)
    (Theta : Matrix (Fin p) (Fin d) ℚ) (M : Matrix (Fin n) (Fin p) ℚ)
    (S : Fin n → ℚ) : Matrix (Fin n) (Fin p) ℚ :=
  (Matrix.of fun i j => Z D Theta M i j + (1/2 : ℚ) * vecSq S i).map ops.exp

/-- `sigma2 = accu(M % (M.each_col() % w)) / (w_bar * p) + accu(w % S2) / w_bar`
(line 423). -/
def sigma2 {n p d : Nat} (D : ObsData n p d) (M : Matrix (Fin n) (Fin p) ℚ)
    (S : Fin n → ℚ) : ℚ :=
  waccu D.w (hadamard M M) / (w_bar D.w * (p : ℚ)) +
    (∑ i, D.w i * vecSq S i) / w_bar D.w

/-- `objective = accu(diagmat(w) * (A - Y % Z)) - 0.5 * p * accu(w % log(S2)) +
0.5 * w_bar * p * log(sigma2)` (lines 424-425), with the unguarded `log(S2)`
checked for IEEE finiteness (`log(sigma2)` is S-independent and stays an
opaque total call). -/
def objective {n p d : Nat} (ops : RealOps) (D : ObsData n p d)
    (Theta : Matrix (Fin p) (Fin d) ℚ) (M : Matrix (Fin n) (Fin p) ℚ)
    (S : Fin n → ℚ) : Option ℚ :=
  (vecTraverse (flog ops.log) (vecSq S)).map fun logS2 =>
    waccu D.w (A ops D Theta M S - hadamard D.Y (Z D Theta M)) -
      (1/2 : ℚ) * (p : ℚ) * (∑ i, D.w i * logS2 i) +
      (1/2 : ℚ) * w_bar D.w * (p : ℚ) * ops.log (sigma2 D M S)

/-- Theta gradient block `(A - Y).t() * (X.each_col() % w)` (line 427). -/
def grad_Theta {n p d : Nat} (ops : RealOps) (D : ObsData n p d)
    (Theta : Matrix (Fin p) (Fin d) ℚ) (M : Matrix (Fin n) (Fin p) ℚ)
    (S : Fin n → ℚ) : Matrix (Fin p) (Fin d) ℚ :=
  (A ops D Theta M S - D.Y).transpose * colWeighted D.w D.X

/-- M gradient block `diagmat(w) * (M / sigma2 + A - Y)` (line 428). -/
def grad_M {n p d : Nat} (ops : RealOps) (D : ObsData n p d)
    (Theta : Matrix (Fin p) (Fin d) ℚ) (M : Matrix (Fin n) (Fin p) ℚ)
    (S : Fin n → ℚ) : Matrix (Fin n) (Fin p) ℚ :=
  colWeighted D.w ((sigma2 D M S)⁻¹ • M + A ops D Theta M S - D.Y)

/-- S gradient block `w % (S % sum(A, 1) - p * pow(S, -1) - p * S / sigma2)`
(line 429), with the unguarded reciprocal of S checked for IEEE finiteness. -/
def grad_S {n p d : Nat} (ops : RealOps) (D : ObsData n p d)
    (Theta : Matrix (Fin p) (Fin d) ℚ) (M : Matrix (Fin n) (Fin p) ℚ)
    (S : Fin n → ℚ) : Option (Fin n → ℚ) :=
  (vecTraverse finv S).map fun Sinv => fun i =>
    D.w i * (S i * (∑ j, A ops D Theta M S i j) - (p : ℚ) * Sinv i -
      (p : ℚ) * S i / sigma2 D M S)

/-- Post-run `n_sigma2 = dot(w, sum(pow(M, 2), 1) + p * S2)` and
`sigma2 = n_sigma2 / (p * w_bar)` (lines 442-443). -/
def sigma2_post {n p d : Nat} (D : ObsData n p d) (M : Matrix (Fin n) (Fin p) ℚ)
    (S : Fin n → ℚ) : ℚ :=
  (∑ i, D.w i * ((∑ j, M i j * M i j) + (p : ℚ) * vecSq S i)) / ((p : ℚ) * w_bar D.w)

end cpp_optimize_spherical

/-! ## cpp_optimize_diagonal (optimize.cpp lines 468-547), diagonal
covariance. Parameters Theta (p,d), M (n,p), S (n,p). -/

namespace cpp_optimize_diagonal

/-- `Z = O + X * Theta.t() + M` (line 507). -/
def Z {n p d : Nat} (D : ObsData n p d) (Theta : Matrix (Fin p) (Fin d) ℚ)
    (M : Matrix (Fin n) (Fin p) ℚ) : Matrix (Fin n) (Fin p) ℚ :=
  D.O + D.X * Theta.transpose + M

/-- `A = exp(Z + 0.5 * S2)` (line 508). -/
def A {n p d : Nat} (ops : RealOps) (D : ObsData n p d)
    (Theta : Matrix (Fin p) (Fin d) ℚ) (M S : Matrix (Fin n) (Fin p) ℚ) :
    Matrix (Fin n) (Fin p) ℚ :=
  (Z D Theta M + (1/2 : ℚ) • matSq S).map ops.exp

/-- `diag_sigma = sum(M % (M.each_col() % w) + (S2.each_col() % w), 0) / w_bar`
(line 509): per-column weighted second moments. -/
def diag_sigma {n p d : Nat} (D : ObsData n p d) (M S : Matrix (Fin n) (Fin p) ℚ) :
    Fin p → ℚ :=
  fun j => (∑ i, (D.w i * (M i j * M i j) + D.w i * matSq S i j)) / w_bar D.w

/-- `objective = accu(diagmat(w) * (A - Y % Z - 0.5 * log(S2))) + 0.5 * w_bar *
accu(log(diag_sigma))` (line 510), with the unguarded `log(S2)` checked for
IEEE finiteness (`log(diag_sigma)` is S-square-free only through weights and
stays an opaque total call). -/
def objective {n p d : Nat} (ops : RealOps) (D : ObsData n p d)
    (Theta : Matrix (Fin p) (Fin d) ℚ) (M S : Matrix (Fin n) (Fin p) ℚ) :
    Option ℚ :=
  (matTraverse (flog ops.log) (matSq S)).map fun logS2 =>
    waccu D.w (A ops D Theta M S - hadamard D.Y (Z D Theta M) - (1/2 : ℚ) • logS2) +
      (1/2 : ℚ) * w_bar D.w * (∑ j, ops.log (diag_sigma D M S j))

/-- Theta gradient block `(A - Y).t() * (X.each_col() % w)` (line 512). -/
def grad_Theta {n p d : Nat} (ops : RealOps) (D : ObsData n p d)
    (Theta : Matrix (Fin p) (Fin d) ℚ) (M S : Matrix (Fin n) (Fin p) ℚ) :
    Matrix (Fin p) (Fin d) ℚ :=
  (A ops D Theta M S - D.Y).transpose * colWeighted D.w D.X

/-- M gradient block `diagmat(w) * ((M.each_row() / diag_sigma) + A - Y)`
(line 513). -/
def grad_M {n p d : Nat} (ops : RealOps) (D : ObsData n p d)
    (Theta : Matrix (Fin p) (Fin d) ℚ) (M S : Matrix (Fin n) (Fin p) ℚ) :
    Matrix (Fin n) (Fin p) ℚ :=
  colWeighted D.w
    ((Matrix.of fun i j => M i j / diag_sigma D M S j) + A ops D Theta M S - D.Y)

/-- S gradient block `diagmat(w) * (S.each_row() % pow(diag_sigma, -1) + S % A -
pow(S, -1))` (line 514), with the unguarded reciprocal of S checked for IEEE
finiteness. -/
def grad_S {n p d : Nat} (ops : RealOps) (D : ObsData n p d)
    (Theta : Matrix (Fin p) (Fin d) ℚ) (M S : Matrix (Fin n) (Fin p) ℚ) :
    Option (Matrix (Fin n) (Fin p) ℚ) :=
  (matTraverse finv S).map fun Sinv =>
    colWeighted D.w
      ((Matrix.of fun i j => S i j * (diag_sigma D M S j)⁻¹) +
        hadamard S (A ops D Theta M S) - Sinv)

/-- Post-run `sigma2 = w.t() * (pow(M, 2) + S2) / w_bar` (line 526). -/
def sigma2_post {n p d : Nat} (D : ObsData n p d) (M S : Matrix (Fin n) (Fin p) ℚ) :
    Fin p → ℚ :=
  fun j => (∑ i, D.w i * (M i j * M i j + matSq S i j)) / w_bar D.w

end cpp_optimize_diagonal

/-! ## cpp_optimize_rank (optimize.cpp lines 554-630), rank-constrained
covariance. Parameters Theta (p,d), B (p,q), M (n,q), S (n,q). -/

namespace cpp_optimize_rank

/-- `Z = O + X * Theta.t() + M * B.t()` (line 595). -/
def Z {n p d q : Nat} (D : ObsData n p d) (Theta : Matrix (Fin p) (Fin d) ℚ)
    (B : Matrix (Fin p) (Fin q) ℚ) (M : Matrix (Fin n) (Fin q) ℚ) :
    Matrix (Fin n) (Fin p) ℚ :=
  D.O + D.X * Theta.transpose + M * B.transpose

/-- `A = exp(Z + 0.5 * S2 * (B % B).t())` (line 596). -/
def A {n p d q : Nat} (ops : RealOps) (D : ObsData n p d)
    (Theta : Matrix (Fin p) (Fin d) ℚ) (B : Matrix (Fin p) (Fin q) ℚ)
    (M S : Matrix (Fin n) (Fin q) ℚ) : Matrix (Fin n) (Fin p) ℚ :=
  (Z D Theta B M + (1/2 : ℚ) • (matSq S * (hadamard B B).transpose)).map ops.exp

/-- `objective = accu(diagmat(w) * (A - Y % Z)) + 0.5 * accu(diagmat(w) *
(M % M + S2 - log(S2) - 1.))` (line 597), with the unguarded `log(S2)` checked
for IEEE finiteness. -/
def objective {n p d q : Nat} (ops : RealOps) (D : ObsData n p d)
    (Theta : Matrix (Fin p) (Fin d) ℚ) (B : Matrix (Fin p) (Fin q) ℚ)
    (M S : Matrix (Fin n) (Fin q) ℚ) : Option ℚ :=
  (matTraverse (flog ops.log) (matSq S)).map fun logS2 =>
    waccu D.w (A ops D Theta B M S - hadamard D.Y (Z D Theta B M)) +
      (1/2 : ℚ) * waccu D.w (hadamard M M + matSq S - logS2 - matConst n q 1)

/-- Theta gradient block `(A - Y).t() * (X.each_col() % w)` (line 599). -/
def grad_Theta {n p d q : Nat} (ops : RealOps) (D : ObsData n p d)
    (Theta : Matrix (Fin p) (Fin d) ℚ) (B : Matrix (Fin p) (Fin q) ℚ)
    (M S : Matrix (Fin n) (Fin q) ℚ) : Matrix (Fin p) (Fin d) ℚ :=
  (A ops D Theta B M S - D.Y).transpose * colWeighted D.w D.X

/-- B gradient block `(diagmat(w) * (A - Y)).t() * M + (A.t() * (S2.each_col()
% w)) % B` (line 600). -/
def grad_B {n p d q : Nat} (ops : RealOps) (D : ObsData n p d)
    (Theta : Matrix (Fin p) (Fin d) ℚ) (B : Matrix (Fin p) (Fin q) ℚ)
    (M S : Matrix (Fin n) (Fin q) ℚ) : Matrix (Fin p) (Fin q) ℚ :=
  (colWeighted D.w (A ops D Theta B M S - D.Y)).transpose * M +
    hadamard ((A ops D Theta B M S).transpose * colWeighted D.w (matSq S)) B

/-- M gradient block `diagmat(w) * ((A - Y) * B + M)` (line 601). -/
def grad_M {n p d q : Nat} (ops : RealOps) (D : ObsData n p d)
    (Theta : Matrix (Fin p) (Fin d) ℚ) (B : Matrix (Fin p) (Fin q) ℚ)
    (M S : Matrix (Fin n) (Fin q) ℚ) : Matrix (Fin n) (Fin q) ℚ :=
  colWeighted D.w ((A ops D Theta B M S - D.Y) * B + M)

/-- S gradient block `diagmat(w) * (S - 1. / S + A * (B % B) % S)` (line 602),
with the unguarded `1. / S` checked for IEEE finiteness. -/
def grad_S {n p d q : Nat} (ops : RealOps) (D : ObsData n p d)
    (Theta : Matrix (Fin p) (Fin d) ℚ) (B : Matrix (Fin p) (Fin q) ℚ)
    (M S : Matrix (Fin n) (Fin q) ℚ) : Option (Matrix (Fin n) (Fin q) ℚ) :=
  (matTraverse finv S).map fun Sinv =>
    colWeighted D.w
      (S - Sinv + hadamard (A ops D Theta B M S * hadamard B B) S)

end cpp_optimize_rank

/-! ## cpp_optimize_sparse (optimize.cpp lines 635-707), sparse inverse
covariance: Omega (p,p) is supplied fixed. Parameters Theta, M, S (n,p). -/

namespace cpp_optimize_sparse

/-- `Z = O + X * Theta.t() + M` (line 673). -/
def Z {n p d : Nat} (D : ObsData n p d) (Theta : Matrix (Fin p) (Fin d) ℚ)
    (M : Matrix (Fin n) (Fin p) ℚ) : Matrix (Fin n) (Fin p) ℚ :=
  D.O + D.X * Theta.transpose + M

/-- `A = exp(Z + 0.5 * S)` (line 674). Note: the closure adds `0.5 * S`,
not `0.5 * S2`, while the post-run recomputation at line 693 uses
`exp(Z + 0.5 * S2)`. -/
def A {n p d : Nat} (ops : RealOps) (D : ObsData n p d)
    (Theta : Matrix (Fin p) (Fin d) ℚ) (M S : Matrix (Fin n) (Fin p) ℚ) :
    Matrix (Fin n) (Fin p) ℚ :=
  (Z D Theta M + (1/2 : ℚ) • S).map ops.exp

/-- `nSigma = M.t() * (M.each_col() % w) + diagmat(w.t() * S2)` (line 675). -/
def nSigma {n p d : Nat} (D : ObsData n p d) (M S : Matrix (Fin n) (Fin p) ℚ) :
    Matrix (Fin p) (Fin p) ℚ :=
  M.transpose * colWeighted D.w M + Matrix.diagonal fun j => ∑ i, D.w i * matSq S i j

/-- `objective = accu(w.t() * (A - Y % Z - 0.5 * log(S2))) - trace(Omega * nSigma)`
(line 676), with the unguarded `log(S2)` checked for IEEE finiteness. -/
def objective {n p d : Nat} (ops : RealOps) (D : ObsData n p d)
    (Omega : Matrix (Fin p) (Fin p) ℚ) (Theta : Matrix (Fin p) (Fin d) ℚ)
    (M S : Matrix (Fin n) (Fin p) ℚ) : Option ℚ :=
  (matTraverse (flog ops.log) (matSq S)).map fun logS2 =>
    waccu D.w (A ops D Theta M S - hadamard D.Y (Z D Theta M) - (1/2 : ℚ) • logS2) -
      (Omega * nSigma D M S).trace

/-- Theta gradient block `(A - Y).t() * (X.each_col() % w)` (line 678). -/
def grad_Theta {n p d : Nat} (ops : RealOps) (D : ObsData n p d)
    (Theta : Matrix (Fin p) (Fin d) ℚ) (M S : Matrix (Fin n) (Fin p) ℚ) :
    Matrix (Fin p) (Fin d) ℚ :=
  (A ops D Theta M S - D.Y).transpose * colWeighted D.w D.X

/-- M gradient block `diagmat(w) * (M * Omega + A - Y)` (line 679). -/
def grad_M {n p d : Nat} (ops : RealOps) (D : ObsData n p d)
    (Omega : Matrix (Fin p) (Fin p) ℚ) (Theta : Matrix (Fin p) (Fin d) ℚ)
    (M S : Matrix (Fin n) (Fin p) ℚ) : Matrix (Fin n) (Fin p) ℚ :=
  colWeighted D.w (M * Omega + A ops D Theta M S - D.Y)

/-- S gradient block `diagmat(w) * (S.each_row() % diagvec(Omega).t() + S % A -
pow(S, -1))` (line 680), with the unguarded reciprocal checked for IEEE
finiteness. -/
def grad_S {n p d : Nat} (ops : RealOps) (D : ObsData n p d)
    (Omega : Matrix (Fin p) (Fin p) ℚ) (Theta : Matrix (Fin p) (Fin d) ℚ)
    (M S : Matrix (Fin n) (Fin p) ℚ) : Option (Matrix (Fin n) (Fin p) ℚ) :=
  (matTraverse finv S).map fun Sinv =>
    colWeighted D.w
      ((Matrix.of fun i j => S i j * Omega j j) +
        hadamard S (A ops D Theta M S) - Sinv)

end cpp_optimize_sparse

/-! ## cpp_optimize_vestep_full (optimize.cpp lines 712-774): VE step with
Theta and Omega fixed. Parameters M, S (n,p). -/

namespace cpp_optimize_vestep_full

/-- `Z = O + X * Theta.t() + M` (line 747). -/
def Z {n p d : Nat} (D : ObsData n p d) (Theta : Matrix (Fin p) (Fin d) ℚ)
    (M : Matrix (Fin n) (Fin p) ℚ) : Matrix (Fin n) (Fin p) ℚ :=
  D.O + D.X * Theta.transpose + M

/-- `A = exp(Z + 0.5 * S2)` (line 748). -/
def A {n p d : Nat} (ops : RealOps) (D : ObsData n p d)
    (Theta : Matrix (Fin p) (Fin d) ℚ) (M S : Matrix (Fin n) (Fin p) ℚ) :
    Matrix (Fin n) (Fin p) ℚ :=
  (Z D Theta M + (1/2 : ℚ) • matSq S).map ops.exp

/-- `nSigma = M.t() * diagmat(w) * M + diagmat(sum(S2.each_col() % w, 0))`
(line 749). -/
def nSigma {n p d : Nat} (D : ObsData n p d) (M S : Matrix (Fin n) (Fin p) ℚ) :
    Matrix (Fin p) (Fin p) ℚ :=
  M.transpose * Matrix.diagonal D.w * M +
    Matrix.diagonal fun j => ∑ i, D.w i * matSq S i j

/-- `objective = accu(w.t() * (A - Y % Z - 0.5 * log(S2))) + 0.5 * trace(Omega *
nSigma)` (line 750), with the unguarded `log(S2)` checked for IEEE finiteness. -/
def objective {n p d : Nat} (ops : RealOps) (D : ObsData n p d)
    (Theta : Matrix (Fin p) (Fin d) ℚ) (Omega : Matrix (Fin p) (Fin p) ℚ)
    (M S : Matrix (Fin n) (Fin p) ℚ) : Option ℚ :=
  (matTraverse (flog ops.log) (matSq S)).map fun logS2 =>
    waccu D.w (A ops D Theta M S - hadamard D.Y (Z D Theta M) - (1/2 : ℚ) • logS2) +
      (1/2 : ℚ) * (Omega * nSigma D M S).trace

/-- M gradient block `diagmat(w) * (M * Omega + A - Y)` (line 752). -/
def grad_M {n p d : Nat} (ops : RealOps) (D : ObsData n p d)
    (Theta : Matrix (Fin p) (Fin d) ℚ) (Omega : Matrix (Fin p) (Fin p) ℚ)
    (M S : Matrix (Fin n) (Fin p) ℚ) : Matrix (Fin n) (Fin p) ℚ :=
  colWeighted D.w (M * Omega + A ops D Theta M S - D.Y)

/-- S gradient block `diagmat(w) * (S.each_row() % diagvec(Omega).t() + S % A -
pow(S, -1))` (line 753), with the unguarded reciprocal checked for IEEE
finiteness. -/
def grad_S {n p d : Nat} (ops : RealOps) (D : ObsData n p d)
    (Theta : Matrix (Fin p) (Fin d) ℚ) (Omega : Matrix (Fin p) (Fin p) ℚ)
    (M S : Matrix (Fin n) (Fin p) ℚ) : Option (Matrix (Fin n) (Fin p) ℚ) :=
  (matTraverse finv S).map fun Sinv =>
    colWeighted D.w
      ((Matrix.of fun i j => S i j * Omega j j) +
        hadamard S (A ops D Theta M S) - Sinv)

end cpp_optimize_vestep_full

/-! ## cpp_optimize_vestep_diagonal (optimize.cpp lines 776-840): VE step,
diagonal covariance, Theta and Omega fixed. Parameters M, S (n,p). -/

namespace cpp_optimize_vestep_diagonal

/-- `Z = O + X * Theta.t() + M` (line 811). -/
def Z {n p d : Nat} (D : ObsData n p d) (Theta : Matrix (Fin p) (Fin d) ℚ)
    (M : Matrix (Fin n) (Fin p) ℚ) : Matrix (Fin n) (Fin p) ℚ :=
  D.O + D.X * Theta.transpose + M

/-- `A = exp(Z + 0.5 * S)` (line 812). Note: the closure adds `0.5 * S`, not
`0.5 * S2`, while the post-run recomputation at line 830 uses
`exp(Z + 0.5 * S2)`. -/
def A {n p d : Nat} (ops : RealOps) (D : ObsData n p d)
    (Theta : Matrix (Fin p) (Fin d) ℚ) (M S : Matrix (Fin n) (Fin p) ℚ) :
    Matrix (Fin n) (Fin p) ℚ :=
  (Z D Theta M + (1/2 : ℚ) • S).map ops.exp

/-- `objective = accu(w.t() * (A - Y % Z - 0.5 * log(S2))) + 0.5 *
as_scalar(w.t() * (pow(M, 2) + S2) * omega2)` (lines 814-815), with `omega2 =
diagvec(Omega)` (line 813) and the unguarded `log(S2)` checked for IEEE
finiteness. -/
def objective {n p d : Nat} (ops : RealOps) (D : ObsData n p d)
    (Theta : Matrix (Fin p) (Fin d) ℚ) (Omega : Matrix (Fin p) (Fin p) ℚ)
    (M S : Matrix (Fin n) (Fin p) ℚ) : Option ℚ :=
  (matTraverse (flog ops.log) (matSq S)).map fun logS2 =>
    waccu D.w (A ops D Theta M S - hadamard D.Y (Z D Theta M) - (1/2 : ℚ) • logS2) +
      (1/2 : ℚ) * (∑ i, D.w i * (∑ j, (M i j * M i j + matSq S i j) * Omega j j))

/-- M gradient block `diagmat(w) * (M * Omega + A - Y)` (line 817). -/
def grad_M {n p d : Nat} (ops : RealOps) (D : ObsData n p d)
    (Theta : Matrix (Fin p) (Fin d) ℚ) (Omega : Matrix (Fin p) (Fin p) ℚ)
    (M S : Matrix (Fin n) (Fin p) ℚ) : Matrix (Fin n) (Fin p) ℚ :=
  colWeighted D.w (M * Omega + A ops D Theta M S - D.Y)

/-- S gradient block `diagmat(w) * (S.each_row() % omega2 + S % A - pow(S, -1))`
(line 818), with the unguarded reciprocal checked for IEEE finiteness. -/
def grad_S {n p d : Nat} (ops : RealOps) (D : ObsData n p d)
    (Theta : Matrix (Fin p) (Fin d) ℚ) (Omega : Matrix (Fin p) (Fin p) ℚ)
    (M S : Matrix (Fin n) (Fin p) ℚ) : Option (Matrix (Fin n) (Fin p) ℚ) :=
  (matTraverse finv S).map fun Sinv =>
    colWeighted D.w
      ((Matrix.of fun i j => S i j * Omega j j) +
        hadamard S (A ops D Theta M S) - Sinv)

end cpp_optimize_vestep_diagonal

/-! ## cpp_optimize_vestep_spherical (optimize.cpp lines 842-908): VE step,
spherical covariance, Theta and Omega fixed. Parameters M (n,p), S (n).
Column counts are stated as `p + 1` so that the code's access `Omega(0, 0)`
(line 881) is well-typed; the entry point is only reached with `p >= 1`. -/

namespace cpp_optimize_vestep_spherical

/-- `Z = O + X * Theta.t() + M` (line 877). -/
def Z {n p d : Nat} (D : ObsData n (p + 1) d) (Theta : Matrix (Fin (p + 1)) (Fin d) ℚ)
    (M : Matrix (Fin n) (Fin (p + 1)) ℚ) : Matrix (Fin n) (Fin (p + 1)) ℚ :=
  D.O + D.X * Theta.transpose + M

/-- `A = exp(Z.each_col() + 0.5 * S2)` (line 878). -/
def A {n p d : Nat} (ops : RealOps) (D : ObsData n (p + 1) d)
    (Theta : Matrix (Fin (p + 1)) (Fin d) ℚ) (M : Matrix (Fin n) (Fin (p + 1)) ℚ)
    (S : Fin n → ℚ) : Matrix (Fin n) (Fin (p + 1)) ℚ :=
  (Matrix.of fun i j => Z D Theta M i j + (1/2 : ℚ) * vecSq S i).map ops.exp

/-- `n_sigma2 = dot(w, sum(pow(M, 2), 1) + p * S)` (line 880). Note: the
closure multiplies `p` by S, not by S2 (the post-run spherical fit at line 442
uses `p * S2`). -/
def n_sigma2 {n p d : Nat} (D : ObsData n (p + 1) d)
    (M : Matrix (Fin n) (Fin (p + 1)) ℚ) (S : Fin n → ℚ) : ℚ :=
  ∑ i, D.w i * ((∑ j, M i j * M i j) + ((p : ℚ) + 1) * S i)

/-- `objective = accu(w.t() * (A - Y % Z)) - 0.5 * p * dot(w, log(S2)) + 0.5 *
n_sigma2 * omega2` (line 882), with `omega2 = Omega(0, 0)` (line 881) and the
unguarded `log(S2)` checked for IEEE finiteness. -/
def objective {n p d : Nat} (ops : RealOps) (D : ObsData n (p + 1) d)
    (Theta : Matrix (Fin (p + 1)) (Fin d) ℚ) (Omega : Matrix (Fin (p + 1)) (Fin (p + 1)) ℚ)
    (M : Matrix (Fin n) (Fin (p + 1)) ℚ) (S : Fin n → ℚ) : Option ℚ :=
  (vecTraverse (flog ops.log) (vecSq S)).map fun logS2 =>
    waccu D.w (A ops D Theta M S - hadamard D.Y (Z D Theta M)) -
      (1/2 : ℚ) * ((p : ℚ) + 1) * (∑ i, D.w i * logS2 i) +
      (1/2 : ℚ) * n_sigma2 D M S * Omega 0 0

/-- M gradient block `diagmat(w) * (M * omega2 + A - Y)` (line 884). -/
def grad_M {n p d : Nat} (ops : RealOps) (D : ObsData n (p + 1) d)
    (Theta : Matrix (Fin (p + 1)) (Fin d) ℚ) (Omega : Matrix (Fin (p + 1)) (Fin (p + 1)) ℚ)
    (M : Matrix (Fin n) (Fin (p + 1)) ℚ) (S : Fin n → ℚ) :
    Matrix (Fin n) (Fin (p + 1)) ℚ :=
  colWeighted D.w (Omega 0 0 • M + A ops D Theta M S - D.Y)

/-- S gradient block `w % (S % sum(A, 1) - p * pow(S, -1) - p * S * omega2)`
(line 885), with the unguarded reciprocal checked for IEEE finiteness. -/
def grad_S {n p d : Nat} (ops : RealOps) (D : ObsData n (p + 1) d)
    (Theta : Matrix (Fin (p + 1)) (Fin d) ℚ) (Omega : Matrix (Fin (p + 1)) (Fin (p + 1)) ℚ)
    (M : Matrix (Fin n) (Fin (p + 1)) ℚ) (S : Fin n → ℚ) : Option (Fin n → ℚ) :=
  (vecTraverse finv S).map fun Sinv => fun i =>
    D.w i * (S i * (∑ j, A ops D Theta M S i j) - ((p : ℚ) + 1) * Sinv i -
      ((p : ℚ) + 1) * S i * Omega 0 0)

end cpp_optimize_vestep_spherical

/-! ## The spec's mean-matrix formula, and claims about the closures -/

/-- The spec's mean matrix with elementwise variance: `A = exp(Z + 0.5 * S²)`,
S squared elementwise (stated for full / diagonal / sparse / VE-full /
VE-diagonal). -/
def spec_A_elementwise {n p : Nat} (exp : ℚ → ℚ) (Z S : Matrix (Fin n) (Fin p) ℚ) :
    Matrix (Fin n) (Fin p) ℚ :=
  (Z + (1/2 : ℚ) • matSq S).map exp

/-- The spec's mean matrix with the per-row scalar S squared broadcast across
columns (spherical / VE-spherical). -/
def spec_A_rowBroadcast {n p : Nat} (exp : ℚ → ℚ) (Z : Matrix (Fin n) (Fin p) ℚ)
    (S : Fin n → ℚ) : Matrix (Fin n) (Fin p) ℚ :=
  (Matrix.of fun i j => Z i j + (1/2 : ℚ) * vecSq S i).map exp

/-- The spec's mean matrix for the rank variant: variance contribution
`(S²) * (B elementwise-squared).t()`. -/
def spec_A_rank {n p q : Nat} (exp : ℚ → ℚ) (Z : Matrix (Fin n) (Fin p) ℚ)
    (S : Matrix (Fin n) (Fin q) ℚ) (B : Matrix (Fin p) (Fin q) ℚ) :
    Matrix (Fin n) (Fin p) ℚ :=
  (Z + (1/2 : ℚ) • (matSq S * (hadamard B B).transpose)).map exp

/-- A concrete 1x1 data set (Y = X = O = 0, w = 1) for evaluating the
closures. -/
def demoData : ObsData 1 1 1 := ⟨0, 0, 0, fun _ => 1⟩

/-- A concrete 1x1 scale matrix with entry 2. -/
def demoS : Matrix (Fin 1) (Fin 1) ℚ := matConst 1 1 2

/-- C1. The mean matrix used by the objective/gradient closures equals
`exp(Z + 0.5 * V)` with V the square-of-S variance contribution for six of the
eight variants (full, spherical, diagonal, rank, VE-full, VE-spherical); the
sparse and VE-diagonal closures instead compute `exp(Z + 0.5 * S)`, which
differs from the spec's formula already at the 1x1 input Z = 0, S = 2
(closure: exp(1), spec: exp(2)). -/
theorem claim_C1_mean_matrix :
    (∀ (n p d : Nat) (ops : RealOps) (D : ObsData n p d)
        (Theta : Matrix (Fin p) (Fin d) ℚ) (M S : Matrix (Fin n) (Fin p) ℚ),
        cpp_optimize_full.A ops D Theta M S =
          spec_A_elementwise ops.exp (cpp_optimize_full.Z D Theta M) S) ∧
    (∀ (n p d : Nat) (ops : RealOps) (D : ObsData n p d)
        (Theta : Matrix (Fin p) (Fin d) ℚ) (M : Matrix (Fin n) (Fin p) ℚ)
        (S : Fin n → ℚ),
        cpp_optimize_spherical.A ops D Theta M S =
          spec_A_rowBroadcast ops.exp (cpp_optimize_spherical.Z D Theta M) S) ∧
    (∀ (n p d : Nat) (ops : RealOps) (D : ObsData n p d)
        (Theta : Matrix (Fin p) (Fin d) ℚ) (M S : Matrix (Fin n) (Fin p) ℚ),
        cpp_optimize_diagonal.A ops D Theta M S =
          spec_A_elementwise ops.exp (cpp_optimize_diagonal.Z D Theta M) S) ∧
    (∀ (n p d q : Nat) (ops : RealOps) (D : ObsData n p d)
        (Theta : Matrix (Fin p) (Fin d) ℚ) (B : Matrix (Fin p) (Fin q) ℚ)
        (M S : Matrix (Fin n) (Fin q) ℚ),
        cpp_optimize_rank.A ops D Theta B M S =
          spec_A_rank ops.exp (cpp_optimize_rank.Z D Theta B M) S B) ∧
    (∀ (n p d : Nat) (ops : RealOps) (D : ObsData n p d)
        (Theta : Matrix (Fin p) (Fin d) ℚ) (M S : Matrix (Fin n) (Fin p) ℚ),
        cpp_optimize_vestep_full.A ops D Theta M S =
          spec_A_elementwise ops.exp (cpp_optimize_vestep_full.Z D Theta M) S) ∧
    (∀ (n p d : Nat) (ops : RealOps) (D : ObsData n (p + 1) d)
        (Theta : Matrix (Fin (p + 1)) (Fin d) ℚ) (M : Matrix (Fin n) (Fin (p + 1)) ℚ)
        (S : Fin n → ℚ),
        cpp_optimize_vestep_spherical.A ops D Theta M S =
          spec_A_rowBroadcast ops.exp (cpp_optimize_vestep_spherical.Z D Theta M) S) ∧
    (cpp_optimize_sparse.A idOps demoData 0 0 demoS 0 0 = 1 ∧
      spec_A_elementwise idOps.exp (cpp_optimize_sparse.Z demoData 0 0) demoS 0 0 = 2 ∧
      cpp_optimize_sparse.A idOps demoData 0 0 demoS ≠
        spec_A_elementwise idOps.exp (cpp_optimize_sparse.Z demoData 0 0) demoS) ∧
    (cpp_optimize_vestep_diagonal.A idOps demoData 0 0 demoS 0 0 = 1 ∧
      spec_A_elementwise idOps.exp (cpp_optimize_vestep_diagonal.Z demoData 0 0) demoS 0 0 = 2 ∧
      cpp_optimize_vestep_diagonal.A idOps demoData 0 0 demoS ≠
        spec_A_elementwise idOps.exp (cpp_optimize_vestep_diagonal.Z demoData 0 0) demoS) := by
  have hsparse1 : cpp_optimize_sparse.A idOps demoData 0 0 demoS 0 0 = 1 := by
    simp [cpp_optimize_sparse.A, cpp_optimize_sparse.Z, idOps, demoData, demoS, matConst,
      Matrix.map_apply, Matrix.add_apply, Matrix.smul_apply, Matrix.mul_apply,
      Fin.sum_univ_one]
  have hsparse2 : spec_A_elementwise idOps.exp (cpp_optimize_sparse.Z demoData 0 0) demoS 0 0 = 2 := by
    simp [spec_A_elementwise, cpp_optimize_sparse.Z, idOps, demoData, demoS, matConst, matSq,
      Matrix.map_apply, Matrix.add_apply, Matrix.smul_apply, Matrix.mul_apply,
      Fin.sum_univ_one]
  have hvd1 : cpp_optimize_vestep_diagonal.A idOps demoData 0 0 demoS 0 0 = 1 := by
    simp [cpp_optimize_vestep_diagonal.A, cpp_optimize_vestep_diagonal.Z, idOps, demoData,
      demoS, matConst, Matrix.map_apply, Matrix.add_apply, Matrix.smul_apply,
      Matrix.mul_apply, Fin.sum_univ_one]
  have hvd2 : spec_A_elementwise idOps.exp (cpp_optimize_vestep_diagonal.Z demoData 0 0) demoS 0 0 = 2 := by
    simp [spec_A_elementwise, cpp_optimize_vestep_diagonal.Z, idOps, demoData, demoS,
      matConst, matSq, Matrix.map_apply, Matrix.add_apply, Matrix.smul_apply,
      Matrix.mul_apply, Fin.sum_univ_one]
  refine ⟨fun _ _ _ _ _ _ _ _ => rfl, fun _ _ _ _ _ _ _ _ => rfl,
    fun _ _ _ _ _ _ _ _ => rfl, fun _ _ _ _ _ _ _ _ _ _ => rfl,
    fun _ _ _ _ _ _ _ _ => rfl, fun _ _ _ _ _ _ _ _ => rfl,
    ⟨hsparse1, hsparse2, ?_⟩, ⟨hvd1, hvd2, ?_⟩⟩
  · intro h
    rw [congrFun (congrFun h 0) 0, hsparse2] at hsparse1
    norm_num at hsparse1
  · intro h
    rw [congrFun (congrFun h 0) 0, hvd2] at hvd1
    norm_num at hvd1

/-- C3. For every full-fit variant that optimizes Theta (full, spherical,
diagonal, rank, sparse), the Theta gradient block computed by the closure is
`(A - Y).t()` times X with each row scaled by its weight. -/
theorem claim_C3_grad_theta :
    (∀ (n p d : Nat) (ops : RealOps) (D : ObsData n p d)
        (Theta : Matrix (Fin p) (Fin d) ℚ) (M S : Matrix (Fin n) (Fin p) ℚ),
        cpp_optimize_full.grad_Theta ops D Theta M S =
          (cpp_optimize_full.A ops D Theta M S - D.Y).transpose * colWeighted D.w D.X) ∧
    (∀ (n p d : Nat) (ops : RealOps) (D : ObsData n p d)
        (Theta : Matrix (Fin p) (Fin d) ℚ) (M : Matrix (Fin n) (Fin p) ℚ)
        (S : Fin n → ℚ),
        cpp_optimize_spherical.grad_Theta ops D Theta M S =
          (cpp_optimize_spherical.A ops D Theta M S - D.Y).transpose * colWeighted D.w D.X) ∧
    (∀ (n p d : Nat) (ops : RealOps) (D : ObsData n p d)
        (Theta : Matrix (Fin p) (Fin d) ℚ) (M S : Matrix (Fin n) (Fin p) ℚ),
        cpp_optimize_diagonal.grad_Theta ops D Theta M S =
          (cpp_optimize_diagonal.A ops D Theta M S - D.Y).transpose * colWeighted D.w D.X) ∧
    (∀ (n p d q : Nat) (ops : RealOps) (D : ObsData n p d)
        (Theta : Matrix (Fin p) (Fin d) ℚ) (B : Matrix (Fin p) (Fin q) ℚ)
        (M S : Matrix (Fin n) (Fin q) ℚ),
        cpp_optimize_rank.grad_Theta ops D Theta B M S =
          (cpp_optimize_rank.A ops D Theta B M S - D.Y).transpose * colWeighted D.w D.X) ∧
    (∀ (n p d : Nat) (ops : RealOps) (D : ObsData n p d)
        (Theta : Matrix (Fin p) (Fin d) ℚ) (M S : Matrix (Fin n) (Fin p) ℚ),
        cpp_optimize_sparse.grad_Theta ops D Theta M S =
          (cpp_optimize_sparse.A ops D Theta M S - D.Y).transpose * colWeighted D.w D.X) :=
  ⟨fun _ _ _ _ _ _ _ _ => rfl, fun _ _ _ _ _ _ _ _ => rfl, fun _ _ _ _ _ _ _ _ => rfl,
    fun _ _ _ _ _ _ _ _ _ _ => rfl, fun _ _ _ _ _ _ _ _ => rfl⟩

/-- C5 (amended). The reported variance is nonnegative for every finite S,
and strictly positive once every relevant entry of S is nonzero (with strictly
positive weights and nonempty dimensions for the weighted scalar / diagonal
equivalents sigma2 / diag_sigma / diag(Sigma)) — including S that is negative
at input or after an optimizer step. -/
theorem claim_C5_variance_positivity_amended :
    (∀ (n p : Nat) (S : Matrix (Fin n) (Fin p) ℚ) (i : Fin n) (j : Fin p),
        0 ≤ matSq S i j) ∧
    (∀ (n p : Nat) (S : Matrix (Fin n) (Fin p) ℚ) (i : Fin n) (j : Fin p),
        S i j ≠ 0 → 0 < matSq S i j) ∧
    (∀ (n p d : Nat) (D : ObsData n p d) (M S : Matrix (Fin n) (Fin p) ℚ) (j : Fin p),
        0 < n → (∀ i, 0 < D.w i) → (∀ i, S i j ≠ 0) →
        0 < cpp_optimize_diagonal.sigma2_post D M S j) ∧
    (∀ (n p d : Nat) (D : ObsData n p d) (M : Matrix (Fin n) (Fin p) ℚ)
        (S : Fin n → ℚ),
        0 < n → 0 < p → (∀ i, 0 < D.w i) → (∀ i, S i ≠ 0) →
        0 < cpp_optimize_spherical.sigma2_post D M S) ∧
    (∀ (n p d : Nat) (D : ObsData n p d) (M S : Matrix (Fin n) (Fin p) ℚ) (j : Fin p),
        0 < n → (∀ i, 0 < D.w i) → (∀ i, S i j ≠ 0) →
        0 < cpp_optimize_full.Sigma_post D M S j j) := by
  refine ⟨?_, ?_, ?_, ?_, ?_⟩
  · intro n p S i j
    exact mul_self_nonneg (S i j)
  · intro n p S i j h
    exact mul_self_pos.mpr h
  · intro n p d D M S j hn hw hS
    have : Nonempty (Fin n) := ⟨⟨0, hn⟩⟩
    have hwbar : 0 < w_bar D.w :=
      Finset.sum_pos (fun i _ => hw i) Finset.univ_nonempty
    have hnum : 0 < ∑ i, D.w i * (M i j * M i j + matSq S i j) := by
      refine Finset.sum_pos (fun i _ => ?_) Finset.univ_nonempty
      have h1 : 0 < M i j * M i j + matSq S i j :=
        add_pos_of_nonneg_of_pos (mul_self_nonneg _) (mul_self_pos.mpr (hS i))
      exact mul_pos (hw i) h1
    exact div_pos hnum hwbar
  · intro n p d D M S hn hp hw hS
    have : Nonempty (Fin n) := ⟨⟨0, hn⟩⟩
    have hpq : (0 : ℚ) < (p : ℚ) := by exact_mod_cast hp
    have hwbar : 0 < w_bar D.w :=
      Finset.sum_pos (fun i _ => hw i) Finset.univ_nonempty
    have hnum : 0 < ∑ i, D.w i * ((∑ j, M i j * M i j) + (p : ℚ) * vecSq S i) := by
      refine Finset.sum_pos (fun i _ => ?_) Finset.univ_nonempty
      have h1 : 0 < (∑ j, M i j * M i j) + (p : ℚ) * vecSq S i :=
        add_pos_of_nonneg_of_pos
          (Finset.sum_nonneg fun j _ => mul_self_nonneg _)
          (mul_pos hpq (mul_self_pos.mpr (hS i)))
      exact mul_pos (hw i) h1
    exact div_pos hnum (mul_pos hpq hwbar)
  · intro n p d D M S j hn hw hS
    have : Nonempty (Fin n) := ⟨⟨0, hn⟩⟩
    have hwbar : 0 < w_bar D.w :=
      Finset.sum_pos (fun i _ => hw i) Finset.univ_nonempty
    have hmm : 0 ≤ (M.transpose * colWeighted D.w M) j j := by
      rw [Matrix.mul_apply]
      refine Finset.sum_nonneg fun i _ => ?_
      have : M.transpose j i * colWeighted D.w M i j = D.w i * (M i j * M i j) := by
        simp [Matrix.transpose_apply, colWeighted]
        ring
      rw [this]
      exact mul_nonneg (le_of_lt (hw i)) (mul_self_nonneg _)
    have hdiag : 0 < (Matrix.diagonal fun k => ∑ i, D.w i * matSq S i k) j j := by
      rw [Matrix.diagonal_apply_eq]
      exact Finset.sum_pos
        (fun i _ => mul_pos (hw i) (mul_self_pos.mpr (hS i))) Finset.univ_nonempty
    have : 0 < (M.transpose * colWeighted D.w M +
        Matrix.diagonal fun k => ∑ i, D.w i * matSq S i k) j j := by
      rw [Matrix.add_apply]
      exact add_pos_of_nonneg_of_pos hmm hdiag
    simpa [cpp_optimize_full.Sigma_post, Matrix.smul_apply] using
      mul_pos (inv_pos.mpr hwbar) this

/-- Counterexample for C5 as stated: at the finite input S = 0, the reported
variance (elementwise S², and the diagonal variant's sigma2 with unit weights)
is 0, which is not strictly positive. -/
theorem claim_C5_counterexample :
    matSq (0 : Matrix (Fin 1) (Fin 1) ℚ) 0 0 = 0 ∧
    cpp_optimize_diagonal.sigma2_post demoData 0 0 0 = 0 ∧
    ¬ ((0 : ℚ) < 0) := by
  refine ⟨by simp [matSq], ?_, lt_irrefl 0⟩
  simp [cpp_optimize_diagonal.sigma2_post, demoData, w_bar, matSq, Fin.sum_univ_one]

/-- C10. Every variant's closure takes `log(S2)` and the elementwise
reciprocal of S unguarded: with those operations checked for IEEE finiteness,
the objective value and the S gradient are defined whenever every entry of S
is nonzero, and as soon as some entry of S is zero the objective and the S
gradient are non-finite (`none`) — the spec states no such precondition. -/
theorem claim_C10_s_nonzero_precondition :
    (∀ (n p d : Nat) (ops : RealOps) (D : ObsData n p d)
        (Theta : Matrix (Fin p) (Fin d) ℚ) (M S : Matrix (Fin n) (Fin p) ℚ),
        (∀ i j, S i j ≠ 0) →
        (cpp_optimize_full.objective ops D Theta M S).isSome ∧
          (cpp_optimize_full.grad_S ops D Theta M S).isSome) ∧
    (∀ (n p d : Nat) (ops : RealOps) (D : ObsData n p d)
        (Theta : Matrix (Fin p) (Fin d) ℚ) (M S : Matrix (Fin n) (Fin p) ℚ)
        (i : Fin n) (j : Fin p), S i j = 0 →
        cpp_optimize_full.objective ops D Theta M S = none ∧
          cpp_optimize_full.grad_S ops D Theta M S = none) ∧
    (∀ (n p d : Nat) (ops : RealOps) (D : ObsData n p d)
        (Theta : Matrix (Fin p) (Fin d) ℚ) (M : Matrix (Fin n) (Fin p) ℚ)
        (S : Fin n → ℚ),
        (∀ i, S i ≠ 0) →
        (cpp_optimize_spherical.objective ops D Theta M S).isSome ∧
          (cpp_optimize_spherical.grad_S ops D Theta M S).isSome) ∧
    (∀ (n p d : Nat) (ops : RealOps) (D : ObsData n p d)
        (Theta : Matrix (Fin p) (Fin d) ℚ) (M : Matrix (Fin n) (Fin p) ℚ)
        (S : Fin n → ℚ) (i : Fin n), S i = 0 →
        cpp_optimize_spherical.objective ops D Theta M S = none ∧
          cpp_optimize_spherical.grad_S ops D Theta M S = none) ∧
    (∀ (n p d : Nat) (ops : RealOps) (D : ObsData n p d)
        (Theta : Matrix (Fin p) (Fin d) ℚ) (M S : Matrix (Fin n) (Fin p) ℚ),
        (∀ i j, S i j ≠ 0) →
        (cpp_optimize_diagonal.objective ops D Theta M S).isSome ∧
          (cpp_optimize_diagonal.grad_S ops D Theta M S).isSome) ∧
    (∀ (n p d : Nat) (ops : RealOps) (D : ObsData n p d)
        (Theta : Matrix (Fin p) (Fin d) ℚ) (M S : Matrix (Fin n) (Fin p) ℚ)
        (i : Fin n) (j : Fin p), S i j = 0 →
        cpp_optimize_diagonal.objective ops D Theta M S = none ∧
          cpp_optimize_diagonal.grad_S ops D Theta M S = none) ∧
    (∀ (n p d q : Nat) (ops : RealOps) (D : ObsData n p d)
        (Theta : Matrix (Fin p) (Fin d) ℚ) (B : Matrix (Fin p) (Fin q) ℚ)
        (M S : Matrix (Fin n) (Fin q) ℚ),
        (∀ i j, S i j ≠ 0) →
        (cpp_optimize_rank.objective ops D Theta B M S).isSome ∧
          (cpp_optimize_rank.grad_S ops D Theta B M S).isSome) ∧
    (∀ (n p d q : Nat) (ops : RealOps) (D : ObsData n p d)
        (Theta : Matrix (Fin p) (Fin d) ℚ) (B : Matrix (Fin p) (Fin q) ℚ)
        (M S : Matrix (Fin n) (Fin q) ℚ) (i : Fin n) (j : Fin q), S i j = 0 →
        cpp_optimize_rank.objective ops D Theta B M S = none ∧
          cpp_optimize_rank.grad_S ops D Theta B M S = none) ∧
    (∀ (n p d : Nat) (ops : RealOps) (D : ObsData n p d)
        (Omega : Matrix (Fin p) (Fin p) ℚ) (Theta : Matrix (Fin p) (Fin d) ℚ)
        (M S : Matrix (Fin n) (Fin p) ℚ),
        (∀ i j, S i j ≠ 0) →
        (cpp_optimize_sparse.objective ops D Omega Theta M S).isSome ∧
          (cpp_optimize_sparse.grad_S ops D Omega Theta M S).isSome) ∧
    (∀ (n p d : Nat) (ops : RealOps) (D : ObsData n p d)
        (Omega : Matrix (Fin p) (Fin p) ℚ) (Theta : Matrix (Fin p) (Fin d) ℚ)
        (M S : Matrix (Fin n) (Fin p) ℚ) (i : Fin n) (j : Fin p), S i j = 0 →
        cpp_optimize_sparse.objective ops D Omega Theta M S = none ∧
          cpp_optimize_sparse.grad_S ops D Omega Theta M S = none) ∧
    (∀ (n p d : Nat) (ops : RealOps) (D : ObsData n p d)
        (Theta : Matrix (Fin p) (Fin d) ℚ) (Omega : Matrix (Fin p) (Fin p) ℚ)
        (M S : Matrix (Fin n) (Fin p) ℚ),
        (∀ i j, S i j ≠ 0) →
        (cpp_optimize_vestep_full.objective ops D Theta Omega M S).isSome ∧
          (cpp_optimize_vestep_full.grad_S ops D Theta Omega M S).isSome) ∧
    (∀ (n p d : Nat) (ops : RealOps) (D : ObsData n p d)
        (Theta : Matrix (Fin p) (Fin d) ℚ) (Omega : Matrix (Fin p) (Fin p) ℚ)
        (M S : Matrix (Fin n) (Fin p) ℚ) (i : Fin n) (j : Fin p), S i j = 0 →
        cpp_optimize_vestep_full.objective ops D Theta Omega M S = none ∧
          cpp_optimize_vestep_full.grad_S ops D Theta Omega M S = none) ∧
    (∀ (n p d : Nat) (ops : RealOps) (D : ObsData n p d)
        (Theta : Matrix (Fin p) (Fin d) ℚ) (Omega : Matrix (Fin p) (Fin p) ℚ)
        (M S : Matrix (Fin n) (Fin p) ℚ),
        (∀ i j, S i j ≠ 0) →
        (cpp_optimize_vestep_diagonal.objective ops D Theta Omega M S).isSome ∧
          (cpp_optimize_vestep_diagonal.grad_S ops D Theta Omega M S).isSome) ∧
    (∀ (n p d : Nat) (ops : RealOps) (D : ObsData n p d)
        (Theta : Matrix (Fin p) (Fin d) ℚ) (Omega : Matrix (Fin p) (Fin p) ℚ)
        (M S : Matrix (Fin n) (Fin p) ℚ) (i : Fin n) (j : Fin p), S i j = 0 →
        cpp_optimize_vestep_diagonal.objective ops D Theta Omega M S = none ∧
          cpp_optimize_vestep_diagonal.grad_S ops D Theta Omega M S = none) ∧
    (∀ (n p d : Nat) (ops : RealOps) (D : ObsData n (p + 1) d)
        (Theta : Matrix (Fin (p + 1)) (Fin d) ℚ)
        (Omega : Matrix (Fin (p + 1)) (Fin (p + 1)) ℚ)
        (M : Matrix (Fin n) (Fin (p + 1)) ℚ) (S : Fin n → ℚ),
        (∀ i, S i ≠ 0) →
        (cpp_optimize_vestep_spherical.objective ops D Theta Omega M S).isSome ∧
          (cpp_optimize_vestep_spherical.grad_S ops D Theta Omega M S).isSome) ∧
    (∀ (n p d : Nat) (ops : RealOps) (D : ObsData n (p + 1) d)
        (Theta : Matrix (Fin (p + 1)) (Fin d) ℚ)
        (Omega : Matrix (Fin (p + 1)) (Fin (p + 1)) ℚ)
        (M : Matrix (Fin n) (Fin (p + 1)) ℚ) (S : Fin n → ℚ) (i : Fin n), S i = 0 →
        cpp_optimize_vestep_spherical.objective ops D Theta Omega M S = none ∧
          cpp_optimize_vestep_spherical.grad_S ops D Theta Omega M S = none) := by
  refine ⟨?_, ?_, ?_, ?_, ?_, ?_, ?_, ?_, ?_, ?_, ?_, ?_, ?_, ?_, ?_, ?_⟩
  · intro n p d ops D Theta M S h
    exact ⟨by simpa [cpp_optimize_full.objective, Option.isSome_map] using
        matTraverse_flog_sq_isSome ops.log S h,
      by simpa [cpp_optimize_full.grad_S, Option.isSome_map] using
        matTraverse_finv_isSome S h⟩
  · intro n p d ops D Theta M S i j h
    exact ⟨by simp [cpp_optimize_full.objective, matTraverse_flog_sq_none ops.log S i j h],
      by simp [cpp_optimize_full.grad_S, matTraverse_finv_none S i j h]⟩
  · intro n p d ops D Theta M S h
    exact ⟨by simpa [cpp_optimize_spherical.objective, Option.isSome_map] using
        vecTraverse_flog_sq_isSome ops.log S h,
      by simpa [cpp_optimize_spherical.grad_S, Option.isSome_map] using
        vecTraverse_finv_isSome S h⟩
  · intro n p d ops D Theta M S i h
    exact ⟨by simp [cpp_optimize_spherical.objective, vecTraverse_flog_sq_none ops.log S i h],
      by simp [cpp_optimize_spherical.grad_S, vecTraverse_finv_none S i h]⟩
  · intro n p d ops D Theta M S h
    exact ⟨by simpa [cpp_optimize_diagonal.objective, Option.isSome_map] using
        matTraverse_flog_sq_isSome ops.log S h,
      by simpa [cpp_optimize_diagonal.grad_S, Option.isSome_map] using
        matTraverse_finv_isSome S h⟩
  · intro n p d ops D Theta M S i j h
    exact ⟨by simp [cpp_optimize_diagonal.objective, matTraverse_flog_sq_none ops.log S i j h],
      by simp [cpp_optimize_diagonal.grad_S, matTraverse_finv_none S i j h]⟩
  · intro n p d q ops D Theta B M S h
    exact ⟨by simpa [cpp_optimize_rank.objective, Option.isSome_map] using
        matTraverse_flog_sq_isSome ops.log S h,
      by simpa [cpp_optimize_rank.grad_S, Option.isSome_map] using
        matTraverse_finv_isSome S h⟩
  · intro n p d q ops D Theta B M S i j h
    exact ⟨by simp [cpp_optimize_rank.objective, matTraverse_flog_sq_none ops.log S i j h],
      by simp [cpp_optimize_rank.grad_S, matTraverse_finv_none S i j h]⟩
  · intro n p d ops D Omega Theta M S h
    exact ⟨by simpa [cpp_optimize_sparse.objective, Option.isSome_map] using
        matTraverse_flog_sq_isSome ops.log S h,
      by simpa [cpp_optimize_sparse.grad_S, Option.isSome_map] using
        matTraverse_finv_isSome S h⟩
  · intro n p d ops D Omega Theta M S i j h
    exact ⟨by simp [cpp_optimize_sparse.objective, matTraverse_flog_sq_none ops.log S i j h],
      by simp [cpp_optimize_sparse.grad_S, matTraverse_finv_none S i j h]⟩
  · intro n p d ops D Theta Omega M S h
    exact ⟨by simpa [cpp_optimize_vestep_full.objective, Option.isSome_map] using
        matTraverse_flog_sq_isSome ops.log S h,
      by simpa [cpp_optimize_vestep_full.grad_S, Option.isSome_map] using
        matTraverse_finv_isSome S h⟩
  · intro n p d ops D Theta Omega M S i j h
    exact ⟨by simp [cpp_optimize_vestep_full.objective,
        matTraverse_flog_sq_none ops.log S i j h],
      by simp [cpp_optimize_vestep_full.grad_S, matTraverse_finv_none S i j h]⟩
  · intro n p d ops D Theta Omega M S h
    exact ⟨by simpa [cpp_optimize_vestep_diagonal.objective, Option.isSome_map] using
        matTraverse_flog_sq_isSome ops.log S h,
      by simpa [cpp_optimize_vestep_diagonal.grad_S, Option.isSome_map] using
        matTraverse_finv_isSome S h⟩
  · intro n p d ops D Theta Omega M S i j h
    exact ⟨by simp [cpp_optimize_vestep_diagonal.objective,
        matTraverse_flog_sq_none ops.log S i j h],
      by simp [cpp_optimize_vestep_diagonal.grad_S, matTraverse_finv_none S i j h]⟩
  · intro n p d ops D Theta Omega M S h
    exact ⟨by simpa [cpp_optimize_vestep_spherical.objective, Option.isSome_map] using
        vecTraverse_flog_sq_isSome ops.log S h,
      by simpa [cpp_optimize_vestep_spherical.grad_S, Option.isSome_map] using
        vecTraverse_finv_isSome S h⟩
  · intro n p d ops D Theta Omega M S i h
    exact ⟨by simp [cpp_optimize_vestep_spherical.objective,
        vecTraverse_flog_sq_none ops.log S i h],
      by simp [cpp_optimize_vestep_spherical.grad_S, vecTraverse_finv_none S i h]⟩
